import Mathlib

/-!
# Verification of the multi-provider AI generation orchestrator

This file gives a shallow embedding, in Lean 4, of the core orchestration
logic of the healthcare web application (`app.js`): the static model
registry `MODEL_PRIORITY`, the per-model statistics map `modelStats`, the
fallback loops `generateWithFallback` and `chatWithFallback`, and the JSON
route handlers that guard and invoke them.  Provider SDK calls
(`groqClient.chat.completions.create`, `model.generateContent`,
`chat.sendMessage`) are modelled as an arbitrary behaviour function
`ProviderRequest → Outcome` supplied by the environment; everything the
source passes into those calls (model name, merged generation config,
prompt, image payload, chat history) is materialised in the
`ProviderRequest` value, so theorems can speak about exactly what is sent.

JavaScript specifics preserved by the embedding:
* `Date.now()` is a `Nat` parameter `now`, constant over a single call;
* JS `a || b` on possibly-absent numeric / string fields is `jsOrOpt` /
  `jsOrStr` (falls through on `undefined`, `0` and `""`);
* the truthiness test `stats.lastFailure && ...` of the cooldown check is
  `coolingDown` (a `0` timestamp is falsy in JS, hence the `t != 0` guard);
* `error.message?.includes(pat)` is `jsIncludes` (substring test);
* object spread `{...a, ...b}` is `jsSpread` (later keys win).
-/

namespace HackSprint

/-- The two backing AI providers that appear in `MODEL_PRIORITY`. -/
inductive Provider where
  | gemini
  | groq
deriving DecidableEq, Repr

/-- One entry of `MODEL_PRIORITY`: model name, provider, and the
provider-specific generation config object (represented as an association
list of numeric fields). -/
structure Candidate where
  name : String
  provider : Provider
  config : List (String × Rat)
deriving DecidableEq, Repr

/-- The per-model record stored in the `modelStats` map:
`{ attempts, failures, lastFailure, rateLimitHits }`. -/
structure Stats where
  attempts : Nat
  failures : Nat
  lastFailure : Option Nat
  rateLimitHits : Nat
deriving DecidableEq, Repr

/-- `modelStats` initialisation: every model starts at
`{ attempts: 0, failures: 0, lastFailure: null, rateLimitHits: 0 }`.
The map is modelled as a total function from model name to record. -/
def initialStats : String → Stats := fun _ => ⟨0, 0, none, 0⟩

/-- Pointwise update of the stats map (`modelStats.set`/mutation of the
record returned by `modelStats.get`). -/
def updateStats (m : String → Stats) (k : String) (v : Stats) : String → Stats :=
  fun n => if n = k then v else m n

/-- `stats.attempts++`. -/
def incAttempts (s : Stats) : Stats :=
  { s with attempts := s.attempts + 1 }

/-- Message roles appearing in provider payloads and chat histories. -/
inductive Role where
  | system
  | user
  | model
deriving DecidableEq, Repr

/-- Character-list version of the JS `String.prototype.includes` substring
test: `isPrefixOfChars pat s` holds when `pat` is a prefix of `s`. -/
def isPrefixOfChars : List Char → List Char → Bool
  | [], _ => true
  | _ :: _, [] => false
  | a :: as, b :: bs => a == b && isPrefixOfChars as bs

/-- `includesChars pat s`: `pat` occurs contiguously somewhere in `s`. -/
def includesChars (pat : List Char) : List Char → Bool
  | [] => pat.isEmpty
  | c :: rest => isPrefixOfChars pat (c :: rest) || includesChars pat rest

/-- JS `s.includes(pat)`. -/
def jsIncludes (s pat : String) : Bool :=
  includesChars pat.data s.data

/-- The rate-limit classification of a caught provider error
(`generateWithFallback` lines 181-185 and the identical block in
`chatWithFallback`): the error message is substring-matched against the
five rate-limit indicators. -/
def isRateLimitMsg (m : String) : Bool :=
  jsIncludes m "RESOURCE_EXHAUSTED" || jsIncludes m "429" ||
    jsIncludes m "quota" || jsIncludes m "rate limit" || jsIncludes m "Rate limit"

/-- The cooldown test
`stats.lastFailure && (Date.now() - stats.lastFailure) < 60000`.
A `null` (and, by JS truthiness, a `0`) `lastFailure` never cools down. -/
def coolingDown (lastFailure : Option Nat) (now : Nat) : Bool :=
  match lastFailure with
  | none => false
  | some t => t != 0 && now - t < 60000

/-- JS `a || b` where `a` is a possibly-absent numeric field: falls through
to `b` when `a` is `undefined` or `0` (falsy). -/
def jsOrOpt (a b : Option Rat) : Option Rat :=
  match a with
  | none => b
  | some x => if x = 0 then b else some x

/-- JS `a || b` where `a` is a possibly-absent string: falls through to `b`
when `a` is `undefined` or the empty string. -/
def jsOrStr (a : Option String) (b : String) : String :=
  match a with
  | none => b
  | some s => if s = "" then b else s

/-- JS object spread `{...base, ...ov}` on config objects: keys of `ov`
take precedence; keys only in `base` keep their default. -/
def jsSpread (base ov : List (String × Rat)) : List (String × Rat) :=
  base.filter (fun p => ((ov.lookup p.1).isNone : Bool)) ++ ov

/-- The catch-block bookkeeping shared by both fallback loops:
`failures++`; if the error message classifies as a rate limit,
`rateLimitHits++` and `lastFailure = Date.now()`. -/
def recordFailure (s : Stats) (m : String) (now : Nat) : Stats :=
  { s with
    failures := s.failures + 1,
    rateLimitHits := s.rateLimitHits + (if isRateLimitMsg m then 1 else 0),
    lastFailure := if isRateLimitMsg m then some now else s.lastFailure }

/-- What the orchestrator hands to a provider SDK call.  Each constructor
records everything the source passes into the corresponding call. -/
inductive ProviderRequest where
  /-- `groqClient.chat.completions.create` in `generateWithFallback`:
  model, the single user message (the prompt), and the `temperature` /
  `max_tokens` values computed with JS `||` from the overrides. -/
  | groqGen (model : String) (prompt : String)
      (temperature : Option Rat) (maxTokens : Option Rat)
  /-- `genAI.getGenerativeModel({model, generationConfig}).generateContent`:
  model, spread-merged generation config, prompt, optional image payload. -/
  | geminiGen (model : String) (config : List (String × Rat))
      (prompt : String) (image : Option String)
  /-- `groqClient.chat.completions.create` in `chatWithFallback`: model,
  the messages array, and the candidate's own config values. -/
  | groqChat (model : String) (messages : List (Role × String))
      (temperature : Option Rat) (maxTokens : Option Rat)
  /-- `chat.sendMessage(message)` for a Gemini chat bound to `model` whose
  accumulated history is `history`. -/
  | geminiChatSend (model : String) (history : List (Role × String))
      (message : String)
deriving DecidableEq, Repr

/-- The model name a provider request is addressed to. -/
def reqModel : ProviderRequest → String
  | .groqGen m _ _ _ => m
  | .geminiGen m _ _ _ => m
  | .groqChat m _ _ _ => m
  | .geminiChatSend m _ _ => m

/-- Outcome of a provider SDK call: the generated text, or a thrown error
carrying a message. -/
inductive Outcome where
  | ok (text : String)
  | err (message : String)
deriving DecidableEq, Repr

/-- `class AppError extends Error { statusCode }`. -/
structure AppError where
  message : String
  statusCode : Nat
deriving DecidableEq, Repr

/-- Successful return value of `generateWithFallback`:
`{ text, modelUsed, provider, success: true }`. -/
structure GenSuccess where
  text : String
  modelUsed : String
  provider : Provider
deriving DecidableEq, Repr

/-- The static fallback registry `MODEL_PRIORITY` (11 candidates, in
declaration order).  Decimal config values are written as explicit
rationals: `Rat.mk' 7 10` is the source's `0.7`, `Rat.mk' 19 20` its
`0.95`. -/
def MODEL_PRIORITY : List Candidate := [
  ⟨"gemini-2.5-flash", .gemini,
    [("temperature", Rat.mk' 7 10), ("topK", 40), ("topP", Rat.mk' 19 20), ("maxOutputTokens", 8000)]⟩,
  ⟨"gemini-2.5-flash-lite", .gemini,
    [("temperature", Rat.mk' 7 10), ("topK", 40), ("topP", Rat.mk' 19 20), ("maxOutputTokens", 8000)]⟩,
  ⟨"llama-3.3-70b-versatile", .groq,
    [("temperature", Rat.mk' 7 10), ("max_tokens", 8000)]⟩,
  ⟨"gemini-2.5-flash-tts", .gemini,
    [("temperature", Rat.mk' 7 10), ("topK", 40), ("topP", Rat.mk' 19 20), ("maxOutputTokens", 800)]⟩,
  ⟨"gemini-3-flash", .gemini,
    [("temperature", Rat.mk' 7 10), ("topK", 40), ("topP", Rat.mk' 19 20), ("maxOutputTokens", 8000)]⟩,
  ⟨"gemma-3-12b", .gemini,
    [("temperature", Rat.mk' 7 10), ("topK", 40), ("topP", Rat.mk' 19 20), ("maxOutputTokens", 8000)]⟩,
  ⟨"gemma-3-1b", .gemini,
    [("temperature", Rat.mk' 7 10), ("topK", 40), ("topP", Rat.mk' 19 20), ("maxOutputTokens", 8000)]⟩,
  ⟨"gemma-3-27b", .gemini,
    [("temperature", Rat.mk' 7 10), ("topK", 40), ("topP", Rat.mk' 19 20), ("maxOutputTokens", 8000)]⟩,
  ⟨"gemma-3-2b", .gemini,
    [("temperature", Rat.mk' 7 10), ("topK", 40), ("topP", Rat.mk' 19 20), ("maxOutputTokens", 8000)]⟩,
  ⟨"gemma-3-4b", .gemini,
    [("temperature", Rat.mk' 7 10), ("topK", 40), ("topP", Rat.mk' 19 20), ("maxOutputTokens", 8000)]⟩,
  ⟨"gemini-robotics-er-1.5-preview", .gemini,
    [("temperature", Rat.mk' 7 10), ("topK", 40), ("topP", Rat.mk' 19 20), ("maxOutputTokens", 8000)]⟩]

/-- `customConfig.temperature || modelConfig.config.temperature`
(the Groq branch of `generateWithFallback`). -/
def groqGenTemperature (c : Candidate) (customConfig : List (String × Rat)) : Option Rat :=
  jsOrOpt (customConfig.lookup "temperature") (c.config.lookup "temperature")

/-- `customConfig.maxOutputTokens || modelConfig.config.max_tokens`
(the Groq branch of `generateWithFallback`). -/
def groqGenMaxTokens (c : Candidate) (customConfig : List (String × Rat)) : Option Rat :=
  jsOrOpt (customConfig.lookup "maxOutputTokens") (c.config.lookup "max_tokens")

/-- The provider request `generateWithFallback` issues for a candidate it
attempts: the Groq call with `||`-merged `temperature`/`max_tokens`, or the
Gemini call with the spread-merged `generationConfig`
(`{ ...modelConfig.config, ...customConfig }`). -/
def genRequestOf (c : Candidate) (prompt : String)
    (customConfig : List (String × Rat)) (imageParts : Option String) : ProviderRequest :=
  if c.provider == Provider.groq then
    .groqGen c.name prompt (groqGenTemperature c customConfig) (groqGenMaxTokens c customConfig)
  else
    .geminiGen c.name (jsSpread c.config customConfig) prompt imageParts

/-- The terminal exhaustion message of `generateWithFallback`:
"AI service temporarily unavailable. Please try again in a moment.
Last error: ${lastError?.message || 'Unknown'}". -/
def allFailedMessage (lastError : Option String) : String :=
  "AI service temporarily unavailable. Please try again in a moment. Last error: "
    ++ jsOrStr lastError "Unknown"

/-- The fallback loop of `generateWithFallback(genAI, groqClient, prompt,
customConfig, imageParts)`.  The provider SDKs are the behaviour function
`behavior`; the loop walks the candidate list, threading the stats map and
the `lastError` variable.  Per candidate, in source order:
`stats.attempts++`; skip if cooling down; Groq + image payload skips to the
next model; otherwise the provider is invoked and the outcome returned
(success) or recorded (catch block) before moving on.  An empty list is
the post-loop `throw new AppError(..., 503)`. -/
def generateWithFallback (behavior : ProviderRequest → Outcome) (now : Nat)
    (prompt : String) (customConfig : List (String × Rat)) (imageParts : Option String) :
    List Candidate → (String → Stats) → Option String →
    Except AppError GenSuccess × (String → Stats)
  | [], stats, lastError =>
      (.error ⟨allFailedMessage lastError, 503⟩, stats)
  | c :: rest, stats, lastError =>
      if coolingDown ((stats c.name).lastFailure) now then
        generateWithFallback behavior now prompt customConfig imageParts rest
          (updateStats stats c.name (incAttempts (stats c.name))) lastError
      else if (c.provider == Provider.groq) && imageParts.isSome then
        generateWithFallback behavior now prompt customConfig imageParts rest
          (updateStats stats c.name (incAttempts (stats c.name))) lastError
      else
        match behavior (genRequestOf c prompt customConfig imageParts) with
        | .ok text =>
            (.ok ⟨text, c.name, c.provider⟩,
             updateStats stats c.name (incAttempts (stats c.name)))
        | .err m =>
            generateWithFallback behavior now prompt customConfig imageParts rest
              (updateStats stats c.name (recordFailure (incAttempts (stats c.name)) m now))
              (some m)

/-- The Dr. AI system prompt, used verbatim both as the Groq `system`
message and as the first (user) priming turn of a fresh Gemini chat. -/
def drAiSystemPrompt : String :=
  "You are Dr. AI, the official medical assistant for the DocOnCall platform. Your role is to be a friendly and empathetic medical assistant chatbot for a virtual healthcare platform. Your role is to: 1) Ask relevant questions about symptoms, 2) Provide general health guidance, 3) Show empathy and be reassuring, 4) Keep responses concise (2-4 sentences), 5) ALWAYS remind users this is not a replacement for professional medical advice. Be warm, professional, and helpful."

/-- The fixed model greeting turn of a fresh Gemini chat history. -/
def drAiGreeting : String :=
  "Hello! I\x27m Dr. AI, your virtual health assistant. I\x27m here to help answer your health questions and provide general guidance. Please remember that I\x27m not a replacement for professional medical advice. How can I assist you today?"

/-- The two fixed turns passed to `model.startChat({history: ...})`. -/
def initialChatHistory : List (Role × String) :=
  [(Role.user, drAiSystemPrompt), (Role.model, drAiGreeting)]

/-- The messages array of the Groq chat call: exactly the fixed system
message plus the current user message — no prior turns. -/
def groqChatMessages (message : String) : List (Role × String) :=
  [(Role.system, drAiSystemPrompt), (Role.user, message)]

/-- A Gemini chat object as the orchestrator sees it: the model it was
created for (`chat.modelName`, set right after `startChat`) and the
accumulated dialogue history. -/
structure ChatState where
  modelName : String
  history : List (Role × String)
deriving DecidableEq, Repr

/-- `if (!chat || chat.modelName !== modelConfig.name) chat = model.startChat(...)`:
reuse the session when it is bound to this candidate, otherwise start a
fresh chat from the fixed initial turns. -/
def resolveChat (chat : Option ChatState) (c : Candidate) : ChatState :=
  match chat with
  | none => ⟨c.name, initialChatHistory⟩
  | some cs => if cs.modelName == c.name then cs else ⟨c.name, initialChatHistory⟩

/-- Successful return value of `chatWithFallback`:
`{ reply, chat, modelUsed, provider, success: true }` — `chat` is `null`
on the Groq path. -/
structure ChatSuccess where
  reply : String
  chat : Option ChatState
  modelUsed : String
  provider : Provider
deriving DecidableEq, Repr

/-- The fixed terminal message of `chatWithFallback` (note: unlike the
generation path, it does not embed `lastError`). -/
def chatExhaustedMessage : String :=
  "AI chat temporarily unavailable. Please try again in a moment."

/-- The fallback loop of `chatWithFallback(genAI, groqClient, chat,
message, sessionId)`.  Per candidate, in source order: skip if cooling
down (before any bookkeeping); `stats.attempts++`; Groq candidates send
`[system, user]` and return `chat: null`; Gemini candidates reuse or
recreate the chat (`resolveChat`) and send the message on it — on failure
the (possibly recreated) chat object stays in the loop variable.  An empty
list is the post-loop `throw new AppError(..., 503)` with a fixed message. -/
def chatWithFallback (behavior : ProviderRequest → Outcome) (now : Nat) (message : String) :
    List Candidate → Option ChatState → (String → Stats) → Option String →
    Except AppError ChatSuccess × (String → Stats)
  | [], _, stats, _ =>
      (.error ⟨chatExhaustedMessage, 503⟩, stats)
  | c :: rest, chat, stats, lastError =>
      if coolingDown ((stats c.name).lastFailure) now then
        chatWithFallback behavior now message rest chat stats lastError
      else if c.provider == Provider.groq then
        match behavior (.groqChat c.name (groqChatMessages message)
            (c.config.lookup "temperature") (c.config.lookup "max_tokens")) with
        | .ok reply =>
            (.ok ⟨reply, none, c.name, c.provider⟩,
             updateStats stats c.name (incAttempts (stats c.name)))
        | .err m =>
            chatWithFallback behavior now message rest chat
              (updateStats stats c.name (recordFailure (incAttempts (stats c.name)) m now))
              (some m)
      else
        match behavior (.geminiChatSend c.name (resolveChat chat c).history message) with
        | .ok reply =>
            (.ok ⟨reply,
                  some ⟨c.name,
                        (resolveChat chat c).history
                          ++ [(Role.user, message), (Role.model, reply)]⟩,
                  c.name, c.provider⟩,
             updateStats stats c.name (incAttempts (stats c.name)))
        | .err m =>
            chatWithFallback behavior now message rest (some (resolveChat chat c))
              (updateStats stats c.name (recordFailure (incAttempts (stats c.name)) m now))
              (some m)

/-! ## Route handlers

The JSON route handlers that guard required fields and call the
orchestrator.  Request-body fields are `Option String` (`none` = the field
is absent from the JSON body); the JS `if (!field)` guard also fires on an
empty string, captured by `jsFalsy`.  The chat-session store
(`chatSessions`) is a total function from session id to optional
`ChatState`. -/

/-- JS falsiness of a possibly-absent string body field. -/
def jsFalsy : Option String → Bool
  | none => true
  | some s => s == ""

/-- The success JSON of `/api/chat`:
`{ reply, success: true, sessionId, modelUsed, provider }`. -/
structure ChatApiResponse where
  reply : String
  sessionId : String
  modelUsed : String
  provider : Provider
deriving DecidableEq, Repr

/-- The success JSON of the text-generation endpoints:
the generated text plus `{ success: true, modelUsed, provider }`. -/
structure GenApiResponse where
  text : String
  modelUsed : String
  provider : Provider
deriving DecidableEq, Repr

/-- `POST /api/chat`: reject a missing/empty `message` with
`AppError('Message is required', 400)`; otherwise look the session up
under `sessionId` (default `'default'`), run `chatWithFallback`, and
persist `result.chat` back into the store only when it is non-null. -/
def apiChat (behavior : ProviderRequest → Outcome) (now : Nat)
    (store : String → Option ChatState) (stats : String → Stats)
    (sessionId : Option String) (message : Option String) :
    Except AppError ChatApiResponse × (String → Option ChatState) × (String → Stats) :=
  if jsFalsy message then
    (.error ⟨"Message is required", 400⟩, store, stats)
  else
    match chatWithFallback behavior now (message.getD "") MODEL_PRIORITY
        (store (sessionId.getD "default")) stats none with
    | (.error e, stats') => (.error e, store, stats')
    | (.ok r, stats') =>
        (.ok ⟨r.reply, sessionId.getD "default", r.modelUsed, r.provider⟩,
         (match r.chat with
          | some cst => fun k => if k = sessionId.getD "default" then some cst else store k
          | none => store),
         stats')

/-- The symptom-analysis prompt, abridged to its interpolation structure:
the template text around the `${...}` holes is shortened, the
interpolated fields and their `|| 'Not specified'` defaults are kept. -/
def analyzeSymptomsPrompt (symptoms : String) (age gender duration : Option String) : String :=
  "You are a medical AI assistant. Analyze the following patient symptoms and provide a structured medical assessment. Age: "
    ++ jsOrStr age "Not specified"
    ++ " Gender: " ++ jsOrStr gender "Not specified"
    ++ " Symptoms: " ++ symptoms
    ++ " Duration: " ++ jsOrStr duration "Not specified"

/-- `POST /api/analyze-symptoms`: reject missing/empty `symptoms` with
`AppError('Symptoms are required', 400)`; otherwise run
`generateWithFallback` with overrides `{temperature: 0.3,
maxOutputTokens: 600}` and no image. -/
def apiAnalyzeSymptoms (behavior : ProviderRequest → Outcome) (now : Nat)
    (stats : String → Stats) (symptoms age gender duration : Option String) :
    Except AppError GenApiResponse × (String → Stats) :=
  if jsFalsy symptoms then
    (.error ⟨"Symptoms are required", 400⟩, stats)
  else
    match generateWithFallback behavior now
        (analyzeSymptomsPrompt (symptoms.getD "") age gender duration)
        [("temperature", Rat.mk' 3 10), ("maxOutputTokens", 600)] none
        MODEL_PRIORITY stats none with
    | (.error e, stats') => (.error e, stats')
    | (.ok r, stats') => (.ok ⟨r.text, r.modelUsed, r.provider⟩, stats')

/-- The prescription-reading prompt (abridged to its fixed head; it has no
interpolation holes). -/
def readPrescriptionPrompt : String :=
  "Analyze this prescription image and extract all readable information."

/-- `POST /api/read-prescription`: reject missing/empty `imageBase64` with
`AppError('Image data is required', 400)`; otherwise strip an optional
data-URL prefix (`split(',')[1]` when the payload contains a comma) and
run `generateWithFallback` with overrides `{temperature: 0.2,
maxOutputTokens: 500}` and the image parts attached. -/
def apiReadPrescription (behavior : ProviderRequest → Outcome) (now : Nat)
    (stats : String → Stats) (imageBase64 : Option String) :
    Except AppError GenApiResponse × (String → Stats) :=
  if jsFalsy imageBase64 then
    (.error ⟨"Image data is required", 400⟩, stats)
  else
    match generateWithFallback behavior now readPrescriptionPrompt
        [("temperature", Rat.mk' 1 5), ("maxOutputTokens", 500)]
        (some (if jsIncludes (imageBase64.getD "") "," then
                 ((imageBase64.getD "").splitOn ",").getD 1 ""
               else imageBase64.getD ""))
        MODEL_PRIORITY stats none with
    | (.error e, stats') => (.error e, stats')
    | (.ok r, stats') => (.ok ⟨r.text, r.modelUsed, r.provider⟩, stats')

/-! ## Interleaved call sequences

For claims about "any sequence of generate and chat calls", a call is an
`Op` (carrying the environment the call runs against) and `runOps` folds
the stats map through a sequence of calls on the real registry. -/

/-- One orchestrator call: a `generateWithFallback` invocation or a
`chatWithFallback` invocation, with its environment (provider behaviour,
clock, inputs). -/
inductive Op where
  | genOp (behavior : ProviderRequest → Outcome) (now : Nat) (prompt : String)
      (customConfig : List (String × Rat)) (imageParts : Option String)
  | chatOp (behavior : ProviderRequest → Outcome) (now : Nat) (message : String)
      (chat : Option ChatState)

/-- The provider behaviour an `Op` runs against. -/
def Op.behavior : Op → (ProviderRequest → Outcome)
  | .genOp b _ _ _ _ => b
  | .chatOp b _ _ _ => b

/-- Stats-map effect of one orchestrator call on the real registry. -/
def runOp (stats : String → Stats) : Op → (String → Stats)
  | .genOp b now prompt cfg img =>
      (generateWithFallback b now prompt cfg img MODEL_PRIORITY stats none).2
  | .chatOp b now msg chat =>
      (chatWithFallback b now msg MODEL_PRIORITY chat stats none).2

/-- Stats-map effect of a sequence of orchestrator calls. -/
def runOps (ops : List Op) (stats : String → Stats) : String → Stats :=
  ops.foldl runOp stats

/-- The stats invariant of the model tracker:
`failures <= attempts` and `rateLimitHits <= failures`. -/
def StatsOK (s : Stats) : Prop :=
  s.failures ≤ s.attempts ∧ s.rateLimitHits ≤ s.failures

instance : DecidablePred StatsOK := fun _ =>
  instDecidableAnd

/-- An outcome that is a thrown error. -/
def Outcome.isErr : Outcome → Bool
  | .ok _ => false
  | .err _ => true

/-! ## Helper lemmas -/

theorem updateStats_same (m : String → Stats) (k : String) (v : Stats) :
    updateStats m k v k = v := by
  simp [updateStats]

theorem updateStats_ne (m : String → Stats) (k : String) (v : Stats) {n : String}
    (h : n ≠ k) : updateStats m k v n = m n := by
  simp [updateStats, h]

theorem reqModel_genRequestOf (c : Candidate) (p : String)
    (cfg : List (String × Rat)) (img : Option String) :
    reqModel (genRequestOf c p cfg img) = c.name := by
  unfold genRequestOf
  split <;> rfl

/-- Candidates whose name never occurs in the list have their stats record
untouched by the generation loop. -/
theorem gen_stats_other (b : ProviderRequest → Outcome) (now : Nat) (p : String)
    (cfg : List (String × Rat)) (img : Option String) (nm : String) :
    ∀ (cs : List Candidate) (stats : String → Stats) (le : Option String),
    (∀ c ∈ cs, c.name ≠ nm) →
    (generateWithFallback b now p cfg img cs stats le).2 nm = stats nm := by
  intro cs
  induction cs with
  | nil => intro stats le _; rfl
  | cons c rest ih =>
    intro stats le h
    have hc : c.name ≠ nm := h c (List.mem_cons_self c rest)
    have hrest : ∀ d ∈ rest, d.name ≠ nm := fun d hd => h d (List.mem_cons_of_mem c hd)
    have hne : nm ≠ c.name := fun hx => hc hx.symm
    simp only [generateWithFallback]
    split
    · rw [ih _ _ hrest, updateStats_ne _ _ _ hne]
    · split
      · rw [ih _ _ hrest, updateStats_ne _ _ _ hne]
      · split
        · exact updateStats_ne _ _ _ hne
        · rw [ih _ _ hrest, updateStats_ne _ _ _ hne]

/-- Candidates whose name never occurs in the list have their stats record
untouched by the chat loop. -/
theorem chat_stats_other (b : ProviderRequest → Outcome) (now : Nat) (msg : String)
    (nm : String) :
    ∀ (cs : List Candidate) (chat : Option ChatState) (stats : String → Stats)
      (le : Option String),
    (∀ c ∈ cs, c.name ≠ nm) →
    (chatWithFallback b now msg cs chat stats le).2 nm = stats nm := by
  intro cs
  induction cs with
  | nil => intro chat stats le _; rfl
  | cons c rest ih =>
    intro chat stats le h
    have hc : c.name ≠ nm := h c (List.mem_cons_self c rest)
    have hrest : ∀ d ∈ rest, d.name ≠ nm := fun d hd => h d (List.mem_cons_of_mem c hd)
    have hne : nm ≠ c.name := fun hx => hc hx.symm
    simp only [chatWithFallback]
    split
    · exact ih _ _ _ hrest
    · split
      · split
        · exact updateStats_ne _ _ _ hne
        · rw [ih _ _ _ hrest, updateStats_ne _ _ _ hne]
      · split
        · exact updateStats_ne _ _ _ hne
        · rw [ih _ _ _ hrest, updateStats_ne _ _ _ hne]

theorem statsOK_incAttempts {s : Stats} (h : StatsOK s) : StatsOK (incAttempts s) := by
  obtain ⟨h1, h2⟩ := h
  exact ⟨Nat.le_succ_of_le h1, h2⟩

theorem statsOK_recordFailure_incAttempts {s : Stats} (h : StatsOK s)
    (m : String) (now : Nat) : StatsOK (recordFailure (incAttempts s) m now) := by
  obtain ⟨h1, h2⟩ := h
  refine ⟨Nat.succ_le_succ h1, ?_⟩
  simp only [recordFailure, incAttempts]
  split <;> omega

/-- Pointwise `StatsOK` preservation by one update. -/
theorem statsOK_updateStats {stats : String → Stats} {v : Stats}
    (h : ∀ nm, StatsOK (stats nm)) (k : String) (hv : StatsOK v) :
    ∀ nm, StatsOK (updateStats stats k v nm) := by
  intro nm
  by_cases hk : nm = k
  · rw [hk, updateStats_same]; exact hv
  · rw [updateStats_ne _ _ _ hk]; exact h nm

/-- The generation loop preserves the stats invariant. -/
theorem gen_statsOK (b : ProviderRequest → Outcome) (now : Nat) (p : String)
    (cfg : List (String × Rat)) (img : Option String) :
    ∀ (cs : List Candidate) (stats : String → Stats) (le : Option String),
    (∀ nm, StatsOK (stats nm)) →
    ∀ nm, StatsOK ((generateWithFallback b now p cfg img cs stats le).2 nm) := by
  intro cs
  induction cs with
  | nil => intro stats le h nm; exact h nm
  | cons c rest ih =>
    intro stats le h nm
    have hinc : StatsOK (incAttempts (stats c.name)) := statsOK_incAttempts (h c.name)
    simp only [generateWithFallback]
    split
    · exact ih _ _ (statsOK_updateStats h c.name hinc) nm
    · split
      · exact ih _ _ (statsOK_updateStats h c.name hinc) nm
      · split
        · exact statsOK_updateStats h c.name hinc nm
        · exact ih _ _
            (statsOK_updateStats h c.name
              (statsOK_recordFailure_incAttempts (h c.name) _ now)) nm

/-- The chat loop preserves the stats invariant. -/
theorem chat_statsOK (b : ProviderRequest → Outcome) (now : Nat) (msg : String) :
    ∀ (cs : List Candidate) (chat : Option ChatState) (stats : String → Stats)
      (le : Option String),
    (∀ nm, StatsOK (stats nm)) →
    ∀ nm, StatsOK ((chatWithFallback b now msg cs chat stats le).2 nm) := by
  intro cs
  induction cs with
  | nil => intro chat stats le h nm; exact h nm
  | cons c rest ih =>
    intro chat stats le h nm
    have hinc : StatsOK (incAttempts (stats c.name)) := statsOK_incAttempts (h c.name)
    simp only [chatWithFallback]
    split
    · exact ih _ _ _ h nm
    · split
      · split
        · exact statsOK_updateStats h c.name hinc nm
        · exact ih _ _ _
            (statsOK_updateStats h c.name
              (statsOK_recordFailure_incAttempts (h c.name) _ now)) nm
      · split
        · exact statsOK_updateStats h c.name hinc nm
        · exact ih _ _ _
            (statsOK_updateStats h c.name
              (statsOK_recordFailure_incAttempts (h c.name) _ now)) nm

/-- One orchestrator call preserves the stats invariant. -/
theorem runOp_statsOK {stats : String → Stats} (h : ∀ nm, StatsOK (stats nm)) (op : Op) :
    ∀ nm, StatsOK (runOp stats op nm) := by
  cases op with
  | genOp b now prompt cfg img => exact gen_statsOK b now prompt cfg img _ _ _ h
  | chatOp b now msg chat => exact chat_statsOK b now msg _ _ _ _ h

/-- Any sequence of orchestrator calls preserves the stats invariant. -/
theorem runOps_statsOK : ∀ (ops : List Op) (stats : String → Stats),
    (∀ nm, StatsOK (stats nm)) → ∀ nm, StatsOK (runOps ops stats nm) := by
  intro ops
  induction ops with
  | nil => intro stats h nm; exact h nm
  | cons op rest ih =>
    intro stats h nm
    exact ih _ (fun k => runOp_statsOK h op k) nm

/-- The provider behaviour never classifies a failure of model `nm` as a
rate limit: every error it returns for a request addressed to `nm` misses
all five rate-limit indicators. -/
def NoRateLimitFor (b : ProviderRequest → Outcome) (nm : String) : Prop :=
  ∀ r, reqModel r = nm → ∀ m, b r = .err m → isRateLimitMsg m = false

theorem recordFailure_lastFailure_of_not_rl {s : Stats} {m : String} {now : Nat}
    (h : isRateLimitMsg m = false) :
    (recordFailure s m now).lastFailure = s.lastFailure := by
  simp [recordFailure, h]

/-- The generation loop never sets `lastFailure` for a model whose errors
are all non-rate-limit. -/
theorem gen_lastFailure_none (b : ProviderRequest → Outcome) (now : Nat) (p : String)
    (cfg : List (String × Rat)) (img : Option String) (nm : String)
    (hb : NoRateLimitFor b nm) :
    ∀ (cs : List Candidate) (stats : String → Stats) (le : Option String),
    (stats nm).lastFailure = none →
    ((generateWithFallback b now p cfg img cs stats le).2 nm).lastFailure = none := by
  intro cs
  induction cs with
  | nil => intro stats le h; exact h
  | cons c rest ih =>
    intro stats le h
    have hInc : ((updateStats stats c.name (incAttempts (stats c.name))) nm).lastFailure
        = none := by
      by_cases hn : nm = c.name
      · rw [hn, updateStats_same]
        rw [hn] at h
        exact h
      · rw [updateStats_ne _ _ _ hn]
        exact h
    simp only [generateWithFallback]
    split
    · exact ih _ _ hInc
    · split
      · exact ih _ _ hInc
      · split
        · exact hInc
        · next m heq =>
          refine ih _ _ ?_
          by_cases hn : nm = c.name
          · rw [hn, updateStats_same]
            have hrl : isRateLimitMsg m = false := by
              refine hb _ ?_ m heq
              rw [reqModel_genRequestOf, hn]
            rw [recordFailure_lastFailure_of_not_rl hrl]
            simp only [incAttempts]
            rw [hn] at h
            exact h
          · rw [updateStats_ne _ _ _ hn]
            exact h

/-- The chat loop never sets `lastFailure` for a model whose errors are
all non-rate-limit. -/
theorem chat_lastFailure_none (b : ProviderRequest → Outcome) (now : Nat) (msg : String)
    (nm : String) (hb : NoRateLimitFor b nm) :
    ∀ (cs : List Candidate) (chat : Option ChatState) (stats : String → Stats)
      (le : Option String),
    (stats nm).lastFailure = none →
    ((chatWithFallback b now msg cs chat stats le).2 nm).lastFailure = none := by
  intro cs
  induction cs with
  | nil => intro chat stats le h; exact h
  | cons c rest ih =>
    intro chat stats le h
    have hInc : ((updateStats stats c.name (incAttempts (stats c.name))) nm).lastFailure
        = none := by
      by_cases hn : nm = c.name
      · rw [hn, updateStats_same]
        rw [hn] at h
        exact h
      · rw [updateStats_ne _ _ _ hn]
        exact h
    have hFail : ∀ m, b (.groqChat c.name (groqChatMessages msg)
          (c.config.lookup "temperature") (c.config.lookup "max_tokens")) = .err m ∨
          b (.geminiChatSend c.name (resolveChat chat c).history msg) = .err m →
        ((updateStats stats c.name
          (recordFailure (incAttempts (stats c.name)) m now)) nm).lastFailure = none := by
      intro m hm
      by_cases hn : nm = c.name
      · rw [hn, updateStats_same]
        have hrl : isRateLimitMsg m = false := by
          rcases hm with hm | hm
          · exact hb _ (by rw [reqModel]; exact hn.symm) m hm
          · exact hb _ (by rw [reqModel]; exact hn.symm) m hm
        rw [recordFailure_lastFailure_of_not_rl hrl]
        simp only [incAttempts]
        rw [hn] at h
        exact h
      · rw [updateStats_ne _ _ _ hn]
        exact h
    simp only [chatWithFallback]
    split
    · exact ih _ _ _ h
    · split
      · split
        · exact hInc
        · next m heq => exact ih _ _ _ (hFail m (Or.inl heq))
      · split
        · exact hInc
        · next m heq => exact ih _ _ _ (hFail m (Or.inr heq))

/-- Generation loop, skipped candidate: a model that on every occurrence
is either cooling down or capability-mismatched (Groq with an image
payload) keeps its record unchanged except that `attempts` may be
incremented once (the loop increments `attempts` before both skip
checks). -/
theorem gen_skip_stats (b : ProviderRequest → Outcome) (now : Nat) (p : String)
    (cfg : List (String × Rat)) (img : Option String) (nm : String) :
    ∀ (cs : List Candidate) (stats : String → Stats) (le : Option String),
    (cs.map Candidate.name).Nodup →
    (∀ c ∈ cs, c.name = nm →
       coolingDown ((stats nm).lastFailure) now = true ∨
       (c.provider = Provider.groq ∧ img.isSome = true)) →
    (generateWithFallback b now p cfg img cs stats le).2 nm = stats nm ∨
    (generateWithFallback b now p cfg img cs stats le).2 nm = incAttempts (stats nm) := by
  intro cs
  induction cs with
  | nil => intro stats le _ _; exact Or.inl rfl
  | cons c rest ih =>
    intro stats le hnd h
    rw [List.map_cons, List.nodup_cons] at hnd
    obtain ⟨hcrest, hndrest⟩ := hnd
    by_cases hn : c.name = nm
    · -- the candidate being skipped: its stats are only touched here
      have hrest_other : ∀ d ∈ rest, d.name ≠ nm := by
        intro d hd hdn
        apply hcrest
        have hmem := List.mem_map_of_mem Candidate.name hd
        rw [hdn, ← hn] at hmem
        exact hmem
      have hskip := h c (List.mem_cons_self c rest) hn
      have hupd : updateStats stats c.name (incAttempts (stats c.name)) nm
          = incAttempts (stats nm) := by
        rw [← hn, updateStats_same]
      simp only [generateWithFallback]
      by_cases hcool : coolingDown ((stats c.name).lastFailure) now = true
      · rw [if_pos hcool]
        right
        rw [gen_stats_other _ _ _ _ _ _ _ _ _ hrest_other, hupd]
      · rw [if_neg hcool]
        have hmis : (c.provider == Provider.groq && img.isSome) = true := by
          rcases hskip with hskip | ⟨hg, hi⟩
          · refine absurd ?_ hcool
            rw [hn]
            exact hskip
          · rw [hg, hi]
            rfl
        rw [if_pos hmis]
        right
        rw [gen_stats_other _ _ _ _ _ _ _ _ _ hrest_other, hupd]
    · -- an unrelated candidate: its processing leaves `nm` untouched
      have hn' : nm ≠ c.name := fun hx => hn hx.symm
      have htrans : ∀ (v : Stats),
          ∀ c' ∈ rest, c'.name = nm →
            coolingDown ((updateStats stats c.name v nm).lastFailure) now = true ∨
            (c'.provider = Provider.groq ∧ img.isSome = true) := by
        intro v c' hc' hcn
        rw [updateStats_ne _ _ _ hn']
        exact h c' (List.mem_cons_of_mem c hc') hcn
      simp only [generateWithFallback]
      split
      · rcases ih _ le hndrest (htrans _) with hl | hr
        · left; rw [hl, updateStats_ne _ _ _ hn']
        · right; rw [hr, updateStats_ne _ _ _ hn']
      · split
        · rcases ih _ le hndrest (htrans _) with hl | hr
          · left; rw [hl, updateStats_ne _ _ _ hn']
          · right; rw [hr, updateStats_ne _ _ _ hn']
        · split
          · left; exact updateStats_ne _ _ _ hn'
          · next m _ =>
            rcases ih _ (some m) hndrest (htrans _) with hl | hr
            · left; rw [hl, updateStats_ne _ _ _ hn']
            · right; rw [hr, updateStats_ne _ _ _ hn']

/-- Chat loop, cooling candidate: the cooldown check precedes all
bookkeeping, so a cooling model's record is completely unchanged. -/
theorem chat_cooldown_stats (b : ProviderRequest → Outcome) (now : Nat) (msg : String)
    (nm : String) :
    ∀ (cs : List Candidate) (chat : Option ChatState) (stats : String → Stats)
      (le : Option String),
    coolingDown ((stats nm).lastFailure) now = true →
    (chatWithFallback b now msg cs chat stats le).2 nm = stats nm := by
  intro cs
  induction cs with
  | nil => intro chat stats le _; rfl
  | cons c rest ih =>
    intro chat stats le h
    by_cases hn : c.name = nm
    · have hcool : coolingDown ((stats c.name).lastFailure) now = true := by
        rw [hn]; exact h
      simp only [chatWithFallback]
      rw [if_pos hcool]
      exact ih _ _ _ h
    · have hn' : nm ≠ c.name := fun hx => hn hx.symm
      have htrans : ∀ (v : Stats),
          coolingDown ((updateStats stats c.name v nm).lastFailure) now = true := by
        intro v
        rw [updateStats_ne _ _ _ hn']
        exact h
      simp only [chatWithFallback]
      split
      · exact ih _ _ _ h
      · split
        · split
          · exact updateStats_ne _ _ _ hn'
          · rw [ih _ _ _ (htrans _), updateStats_ne _ _ _ hn']
        · split
          · exact updateStats_ne _ _ _ hn'
          · rw [ih _ _ _ (htrans _), updateStats_ne _ _ _ hn']

/-- Recognise the Groq plain-generation request. -/
def isGroqGenReq : ProviderRequest → Bool
  | .groqGen _ _ _ _ => true
  | _ => false

/-- With an image payload attached, the generation loop never consults the
provider behaviour on a Groq generation request: replacing all Groq
generation responses by anything at all changes neither the result nor
the stats.  (This is the "skipped without being invoked" part of the
capability mismatch.) -/
theorem gen_image_groq_independent (b o : ProviderRequest → Outcome) (now : Nat)
    (p : String) (cfg : List (String × Rat)) (img : String) :
    ∀ (cs : List Candidate) (stats : String → Stats) (le : Option String),
    generateWithFallback (fun r => if isGroqGenReq r then o r else b r) now p cfg
        (some img) cs stats le
      = generateWithFallback b now p cfg (some img) cs stats le := by
  intro cs
  induction cs with
  | nil => intro stats le; rfl
  | cons c rest ih =>
    intro stats le
    simp only [generateWithFallback]
    by_cases hcool : coolingDown ((stats c.name).lastFailure) now = true
    · rw [if_pos hcool, if_pos hcool, ih]
    · rw [if_neg hcool, if_neg hcool]
      by_cases hg : (c.provider == Provider.groq) = true
      · have hcond : (c.provider == Provider.groq && (some img).isSome) = true := by
          rw [hg]; rfl
        rw [if_pos hcond, if_pos hcond, ih]
      · have hg' : (c.provider == Provider.groq) = false := Bool.eq_false_iff.mpr hg
        have hcond : (c.provider == Provider.groq && (some img).isSome) = false := by
          rw [hg']; rfl
        have hreq : isGroqGenReq (genRequestOf c p cfg (some img)) = false := by
          simp only [genRequestOf, hg', Bool.false_eq_true, if_false, isGroqGenReq]
        simp only [hcond, Bool.false_eq_true, if_false, hreq]
        cases hres : b (genRequestOf c p cfg (some img)) with
        | ok t => simp only [hres]
        | err m => simp only [hres]; exact ih _ _

/-- Candidate `d` is skipped by the generation loop against stats map
`stats`: it is cooling down, or it is a Groq candidate while the request
carries an image payload. -/
def genSkips (now : Nat) (img : Option String) (stats : String → Stats)
    (d : Candidate) : Prop :=
  coolingDown ((stats d.name).lastFailure) now = true ∨
    (d.provider = Provider.groq ∧ img.isSome = true)

/-- Candidate `d` is attempted by the generation loop and its provider
call fails. -/
def genFails (b : ProviderRequest → Outcome) (p : String) (cfg : List (String × Rat))
    (img : Option String) (d : Candidate) : Prop :=
  ∃ m, b (genRequestOf d p cfg img) = .err m

instance (now : Nat) (img : Option String) (stats : String → Stats) (d : Candidate) :
    Decidable (genSkips now img stats d) := by
  unfold genSkips
  infer_instance

theorem updateStats_incAttempts_lastFailure (stats : String → Stats) (k n : String) :
    ((updateStats stats k (incAttempts (stats k))) n).lastFailure
      = (stats n).lastFailure := by
  by_cases h : n = k
  · rw [h, updateStats_same]; rfl
  · rw [updateStats_ne _ _ _ h]

/-- If every candidate of the list is skipped (cooling down or Groq with
an image), the generation loop falls through to the terminal 503 carrying
the `lastError` it was entered with, and no `lastFailure` changes. -/
theorem gen_all_skips (b : ProviderRequest → Outcome) (now : Nat) (p : String)
    (cfg : List (String × Rat)) (img : Option String) :
    ∀ (cs : List Candidate) (stats : String → Stats) (le : Option String),
    (∀ d ∈ cs, genSkips now img stats d) →
    (generateWithFallback b now p cfg img cs stats le).1
        = .error ⟨allFailedMessage le, 503⟩ ∧
    ∀ nm, ((generateWithFallback b now p cfg img cs stats le).2 nm).lastFailure
        = (stats nm).lastFailure := by
  intro cs
  induction cs with
  | nil => intro stats le _; exact ⟨rfl, fun _ => rfl⟩
  | cons c rest ih =>
    intro stats le h
    have hc := h c (List.mem_cons_self c rest)
    have hrest : ∀ d ∈ rest,
        genSkips now img (updateStats stats c.name (incAttempts (stats c.name))) d := by
      intro d hd
      rcases h d (List.mem_cons_of_mem c hd) with hcd | hmd
      · exact Or.inl (by rw [updateStats_incAttempts_lastFailure]; exact hcd)
      · exact Or.inr hmd
    simp only [generateWithFallback]
    by_cases hcool : coolingDown ((stats c.name).lastFailure) now = true
    · rw [if_pos hcool]
      obtain ⟨h1, h2⟩ := ih _ le hrest
      exact ⟨h1, fun nm => (h2 nm).trans (updateStats_incAttempts_lastFailure _ _ _)⟩
    · have hcond : (c.provider == Provider.groq && img.isSome) = true := by
        rcases hc with hcd | ⟨hg, hi⟩
        · exact absurd hcd hcool
        · rw [hg, hi]; rfl
      rw [if_neg hcool, if_pos hcond]
      obtain ⟨h1, h2⟩ := ih _ le hrest
      exact ⟨h1, fun nm => (h2 nm).trans (updateStats_incAttempts_lastFailure _ _ _)⟩

/-- The generation loop runs through a prefix of candidates that are each
skipped or failing, and arrives at the rest of the list with a stats map
that agrees with the entry map on every name not in the prefix. -/
theorem gen_reach (b : ProviderRequest → Outcome) (now : Nat) (p : String)
    (cfg : List (String × Rat)) (img : Option String) (tail : List Candidate) :
    ∀ (pre : List Candidate) (stats : String → Stats) (le : Option String),
    ((pre ++ tail).map Candidate.name).Nodup →
    (∀ d ∈ pre, genSkips now img stats d ∨ genFails b p cfg img d) →
    ∃ (stats' : String → Stats) (le' : Option String),
      generateWithFallback b now p cfg img (pre ++ tail) stats le
        = generateWithFallback b now p cfg img tail stats' le' ∧
      ∀ nm, nm ∉ pre.map Candidate.name → stats' nm = stats nm := by
  intro pre
  induction pre with
  | nil =>
    intro stats le _ _
    exact ⟨stats, le, rfl, fun _ _ => rfl⟩
  | cons d pre' ih =>
    intro stats le hnd h
    rw [List.cons_append, List.map_cons, List.nodup_cons] at hnd
    obtain ⟨hdrest, hndrest⟩ := hnd
    have hdpre' : ∀ e ∈ pre', e.name ≠ d.name := by
      intro e he hne
      apply hdrest
      rw [← hne]
      exact List.mem_map_of_mem Candidate.name (List.mem_append_left _ he)
    -- hypothesis transfer after an update at `d.name`
    have htrans : ∀ (v : Stats), ∀ e ∈ pre',
        genSkips now img (updateStats stats d.name v) e ∨ genFails b p cfg img e := by
      intro v e he
      rcases h e (List.mem_cons_of_mem d he) with hse | hfe
      · left
        rcases hse with hce | hme
        · exact Or.inl (by rw [updateStats_ne _ _ _ (hdpre' e he)]; exact hce)
        · exact Or.inr hme
      · exact Or.inr hfe
    have hstep : ∀ (v : Stats) (le'' : Option String),
        (∃ stats' le',
          generateWithFallback b now p cfg img (pre' ++ tail) (updateStats stats d.name v) le''
            = generateWithFallback b now p cfg img tail stats' le' ∧
          ∀ nm, nm ∉ pre'.map Candidate.name → stats' nm = updateStats stats d.name v nm) →
        ∃ stats' le',
          generateWithFallback b now p cfg img (pre' ++ tail) (updateStats stats d.name v) le''
            = generateWithFallback b now p cfg img tail stats' le' ∧
          ∀ nm, nm ∉ (d :: pre').map Candidate.name → stats' nm = stats nm := by
      intro v le'' ⟨stats', le', heq, hpres⟩
      refine ⟨stats', le', heq, fun nm hnm => ?_⟩
      rw [List.map_cons, List.mem_cons] at hnm
      push_neg at hnm
      rw [hpres nm hnm.2, updateStats_ne _ _ _ hnm.1]
    rw [List.cons_append]
    simp only [generateWithFallback]
    by_cases hcool : coolingDown ((stats d.name).lastFailure) now = true
    · rw [if_pos hcool]
      exact hstep _ le (ih _ le hndrest (htrans _))
    · rw [if_neg hcool]
      by_cases hcond : (d.provider == Provider.groq && img.isSome) = true
      · rw [if_pos hcond]
        exact hstep _ le (ih _ le hndrest (htrans _))
      · rw [if_neg hcond]
        have hfail : genFails b p cfg img d := by
          rcases h d (List.mem_cons_self d pre') with hsd | hfd
          · rcases hsd with hcd | ⟨hg, hi⟩
            · exact absurd hcd hcool
            · exact absurd (by rw [hg, hi]; rfl) hcond
          · exact hfd
        obtain ⟨m, hm⟩ := hfail
        rw [hm]
        exact hstep _ (some m) (ih _ (some m) hndrest (htrans _))

/-- One loop step at a candidate that is attempted and succeeds. -/
theorem gen_head_success (b : ProviderRequest → Outcome) (now : Nat) (p : String)
    (cfg : List (String × Rat)) (img : Option String) (c : Candidate)
    (tail : List Candidate) (stats : String → Stats) (le : Option String) (t : String)
    (hcool : coolingDown ((stats c.name).lastFailure) now = false)
    (hcap : (c.provider == Provider.groq && img.isSome) = false)
    (hok : b (genRequestOf c p cfg img) = .ok t) :
    generateWithFallback b now p cfg img (c :: tail) stats le
      = (.ok ⟨t, c.name, c.provider⟩,
         updateStats stats c.name (incAttempts (stats c.name))) := by
  simp only [generateWithFallback, hcool, hcap, Bool.false_eq_true, if_false, hok]

/-- One loop step at a candidate that is attempted and fails. -/
theorem gen_head_err (b : ProviderRequest → Outcome) (now : Nat) (p : String)
    (cfg : List (String × Rat)) (img : Option String) (c : Candidate)
    (tail : List Candidate) (stats : String → Stats) (le : Option String) (m : String)
    (hcool : coolingDown ((stats c.name).lastFailure) now = false)
    (hcap : (c.provider == Provider.groq && img.isSome) = false)
    (herr : b (genRequestOf c p cfg img) = .err m) :
    generateWithFallback b now p cfg img (c :: tail) stats le
      = generateWithFallback b now p cfg img tail
          (updateStats stats c.name (recordFailure (incAttempts (stats c.name)) m now))
          (some m) := by
  simp only [generateWithFallback, hcool, hcap, Bool.false_eq_true, if_false, herr]

/-- The chat loop's terminal failure is always the fixed 503; it never
embeds any provider error message. -/
theorem chat_error_fixed (b : ProviderRequest → Outcome) (now : Nat) (msg : String) :
    ∀ (cs : List Candidate) (chat : Option ChatState) (stats : String → Stats)
      (le : Option String) (e : AppError) (st' : String → Stats),
    chatWithFallback b now msg cs chat stats le = (.error e, st') →
    e = ⟨chatExhaustedMessage, 503⟩ := by
  intro cs
  induction cs with
  | nil =>
    intro chat stats le e st' h
    rw [chatWithFallback, Prod.mk.injEq] at h
    exact (Except.error.inj h.1).symm
  | cons c rest ih =>
    intro chat stats le e st' h
    rw [chatWithFallback] at h
    revert h
    split
    · exact fun h => ih _ _ _ _ _ h
    · split
      · split
        · intro h
          rw [Prod.mk.injEq] at h
          exact Except.noConfusion h.1
        · exact fun h => ih _ _ _ _ _ h
      · split
        · intro h
          rw [Prod.mk.injEq] at h
          exact Except.noConfusion h.1
        · exact fun h => ih _ _ _ _ _ h

/-- A successful chat turn served by a Groq candidate carries a `null`
chat object. -/
theorem chat_ok_groq_chat_none (b : ProviderRequest → Outcome) (now : Nat) (msg : String) :
    ∀ (cs : List Candidate) (chat : Option ChatState) (stats : String → Stats)
      (le : Option String) (r : ChatSuccess) (st' : String → Stats),
    chatWithFallback b now msg cs chat stats le = (.ok r, st') →
    r.provider = Provider.groq → r.chat = none := by
  intro cs
  induction cs with
  | nil =>
    intro chat stats le r st' h _
    rw [chatWithFallback, Prod.mk.injEq] at h
    exact Except.noConfusion h.1
  | cons c rest ih =>
    intro chat stats le r st' h hp
    rw [chatWithFallback] at h
    revert h
    split
    · exact fun h => ih _ _ _ _ _ h hp
    · split
      · split
        · intro h
          rw [Prod.mk.injEq] at h
          rw [← Except.ok.inj h.1]
        · exact fun h => ih _ _ _ _ _ h hp
      · next hng =>
        split
        · intro h
          rw [Prod.mk.injEq] at h
          rw [← Except.ok.inj h.1] at hp
          have hp' : c.provider = Provider.groq := hp
          exact absurd (by rw [hp']; rfl) hng
        · exact fun h => ih _ _ _ _ _ h hp

theorem isErr_exists {o : Outcome} (h : o.isErr = true) : ∃ m, o = .err m := by
  cases o with
  | ok t => exact absurd h (by rw [Outcome.isErr]; exact Bool.false_ne_true)
  | err m => exact ⟨m, rfl⟩

/-- A session bound to this candidate's model is reused as is. -/
theorem resolveChat_same {cst : ChatState} {c : Candidate} (h : cst.modelName = c.name) :
    resolveChat (some cst) c = cst := by
  simp [resolveChat, h]

/-- A session bound to a different model is discarded for a fresh chat. -/
theorem resolveChat_switch {cst : ChatState} {c : Candidate} (h : cst.modelName ≠ c.name) :
    resolveChat (some cst) c = ⟨c.name, initialChatHistory⟩ := by
  simp [resolveChat, h]

/-- The chat the loop sends on is always bound to the current candidate. -/
theorem resolveChat_modelName (chat : Option ChatState) (d : Candidate) :
    (resolveChat chat d).modelName = d.name := by
  cases chat with
  | none => rfl
  | some cst =>
    by_cases h : cst.modelName = d.name
    · rw [resolveChat_same h, h]
    · rw [resolveChat_switch h]

/-- One chat loop step at a cooling candidate. -/
theorem chat_head_cool (b : ProviderRequest → Outcome) (now : Nat) (msg : String)
    (c : Candidate) (tail : List Candidate) (chat : Option ChatState)
    (stats : String → Stats) (le : Option String)
    (hcool : coolingDown ((stats c.name).lastFailure) now = true) :
    chatWithFallback b now msg (c :: tail) chat stats le
      = chatWithFallback b now msg tail chat stats le := by
  simp only [chatWithFallback, hcool, if_true]

/-- One chat loop step at an attempted Groq candidate that fails. -/
theorem chat_head_groq_err (b : ProviderRequest → Outcome) (now : Nat) (msg : String)
    (c : Candidate) (tail : List Candidate) (chat : Option ChatState)
    (stats : String → Stats) (le : Option String) (m : String)
    (hcool : coolingDown ((stats c.name).lastFailure) now = false)
    (hg : (c.provider == Provider.groq) = true)
    (herr : b (.groqChat c.name (groqChatMessages msg)
        (c.config.lookup "temperature") (c.config.lookup "max_tokens")) = .err m) :
    chatWithFallback b now msg (c :: tail) chat stats le
      = chatWithFallback b now msg tail chat
          (updateStats stats c.name (recordFailure (incAttempts (stats c.name)) m now))
          (some m) := by
  simp only [chatWithFallback, hcool, hg, Bool.false_eq_true, if_false, if_true, herr]

/-- One chat loop step at an attempted Gemini candidate that fails: the
(possibly recreated) chat object replaces the loop's chat variable. -/
theorem chat_head_gemini_err (b : ProviderRequest → Outcome) (now : Nat) (msg : String)
    (c : Candidate) (tail : List Candidate) (chat : Option ChatState)
    (stats : String → Stats) (le : Option String) (m : String)
    (hcool : coolingDown ((stats c.name).lastFailure) now = false)
    (hng : (c.provider == Provider.groq) = false)
    (herr : b (.geminiChatSend c.name (resolveChat chat c).history msg) = .err m) :
    chatWithFallback b now msg (c :: tail) chat stats le
      = chatWithFallback b now msg tail (some (resolveChat chat c))
          (updateStats stats c.name (recordFailure (incAttempts (stats c.name)) m now))
          (some m) := by
  simp only [chatWithFallback, hcool, hng, Bool.false_eq_true, if_false, herr]

/-- One chat loop step at an attempted Gemini candidate that succeeds. -/
theorem chat_head_gemini_ok (b : ProviderRequest → Outcome) (now : Nat) (msg : String)
    (c : Candidate) (tail : List Candidate) (chat : Option ChatState)
    (stats : String → Stats) (le : Option String) (reply : String)
    (hcool : coolingDown ((stats c.name).lastFailure) now = false)
    (hng : (c.provider == Provider.groq) = false)
    (hok : b (.geminiChatSend c.name (resolveChat chat c).history msg) = .ok reply) :
    chatWithFallback b now msg (c :: tail) chat stats le
      = (.ok ⟨reply,
              some ⟨c.name,
                    (resolveChat chat c).history
                      ++ [(Role.user, msg), (Role.model, reply)]⟩,
              c.name, c.provider⟩,
         updateStats stats c.name (incAttempts (stats c.name))) := by
  simp only [chatWithFallback, hcool, hng, Bool.false_eq_true, if_false, hok]

/-- If every candidate before the serving one is either cooling down or a
failing Groq candidate — so no earlier Gemini candidate is attempted — a
session bound to the serving Gemini candidate's model is continued: the
reply is generated on the stored history, and the returned session appends
exactly the new user/model turns to it. -/
theorem chat_same_model_aux (b : ProviderRequest → Outcome) (now : Nat) (msg : String)
    (cst : ChatState) (c : Candidate) (post : List Candidate) (reply : String) :
    ∀ (pre : List Candidate) (stats : String → Stats) (le : Option String),
    ((pre ++ c :: post).map Candidate.name).Nodup →
    (∀ d ∈ pre,
       coolingDown ((stats d.name).lastFailure) now = true ∨
       (d.provider = Provider.groq ∧ ∀ r, reqModel r = d.name → (b r).isErr = true)) →
    (c.provider == Provider.groq) = false →
    coolingDown ((stats c.name).lastFailure) now = false →
    cst.modelName = c.name →
    b (.geminiChatSend c.name cst.history msg) = .ok reply →
    (chatWithFallback b now msg (pre ++ c :: post) (some cst) stats le).1
      = .ok ⟨reply, some ⟨c.name, cst.history ++ [(Role.user, msg), (Role.model, reply)]⟩,
             c.name, c.provider⟩ := by
  intro pre
  induction pre with
  | nil =>
    intro stats le _ _ hng hcool hname hok
    have hok' : b (.geminiChatSend c.name (resolveChat (some cst) c).history msg)
        = .ok reply := by
      rw [resolveChat_same hname]
      exact hok
    rw [List.nil_append,
        chat_head_gemini_ok b now msg c post (some cst) stats le reply hcool hng hok',
        resolveChat_same hname]
  | cons d pre' ih =>
    intro stats le hnd h hng hcool hname hok
    rw [List.cons_append, List.map_cons, List.nodup_cons] at hnd
    obtain ⟨hdrest, hndrest⟩ := hnd
    have hcd : c.name ≠ d.name := by
      intro hx
      apply hdrest
      rw [← hx]
      exact List.mem_map_of_mem Candidate.name
        (List.mem_append_right _ (List.mem_cons_self c post))
    have hdpre' : ∀ e ∈ pre', e.name ≠ d.name := by
      intro e he hne
      apply hdrest
      rw [← hne]
      exact List.mem_map_of_mem Candidate.name (List.mem_append_left _ he)
    rw [List.cons_append]
    by_cases hdcool : coolingDown ((stats d.name).lastFailure) now = true
    · rw [chat_head_cool b now msg d _ _ stats le hdcool]
      exact ih stats le hndrest
        (fun e he => h e (List.mem_cons_of_mem d he)) hng hcool hname hok
    · have hdcool' : coolingDown ((stats d.name).lastFailure) now = false :=
        Bool.eq_false_iff.mpr hdcool
      rcases h d (List.mem_cons_self d pre') with hx | ⟨hgq, hall⟩
      · exact absurd hx hdcool
      · have hgq' : (d.provider == Provider.groq) = true := by rw [hgq]; rfl
        obtain ⟨m, hm⟩ := isErr_exists (hall (.groqChat d.name (groqChatMessages msg)
          (d.config.lookup "temperature") (d.config.lookup "max_tokens")) rfl)
        rw [chat_head_groq_err b now msg d _ (some cst) stats le m hdcool' hgq' hm]
        refine ih _ (some m) hndrest ?_ hng ?_ hname hok
        · intro e he
          rcases h e (List.mem_cons_of_mem d he) with hce | hge
          · left
            rw [updateStats_ne _ _ _ (hdpre' e he)]
            exact hce
          · right; exact hge
        · rw [updateStats_ne _ _ _ hcd]
          exact hcool

/-- If every candidate before the serving Gemini candidate is either
cooling down or failing, and the incoming session (if any) is bound to a
different model than the serving candidate, the reply is generated on a
fresh chat: the returned session starts from the fixed initial turns. -/
theorem chat_switch_fresh_aux (b : ProviderRequest → Outcome) (now : Nat) (msg : String)
    (c : Candidate) (post : List Candidate) (reply : String) :
    ∀ (pre : List Candidate) (chat : Option ChatState) (stats : String → Stats)
      (le : Option String),
    ((pre ++ c :: post).map Candidate.name).Nodup →
    (∀ d ∈ pre,
       coolingDown ((stats d.name).lastFailure) now = true ∨
       (∀ r, reqModel r = d.name → (b r).isErr = true)) →
    (∀ cst, chat = some cst → cst.modelName ≠ c.name) →
    (c.provider == Provider.groq) = false →
    coolingDown ((stats c.name).lastFailure) now = false →
    b (.geminiChatSend c.name initialChatHistory msg) = .ok reply →
    (chatWithFallback b now msg (pre ++ c :: post) chat stats le).1
      = .ok ⟨reply,
             some ⟨c.name, initialChatHistory ++ [(Role.user, msg), (Role.model, reply)]⟩,
             c.name, c.provider⟩ := by
  intro pre
  induction pre with
  | nil =>
    intro chat stats le _ _ hchat hng hcool hok
    have hres : resolveChat chat c = ⟨c.name, initialChatHistory⟩ := by
      cases chat with
      | none => rfl
      | some cst => exact resolveChat_switch (hchat cst rfl)
    have hok' : b (.geminiChatSend c.name (resolveChat chat c).history msg)
        = .ok reply := by
      rw [hres]; exact hok
    rw [List.nil_append,
        chat_head_gemini_ok b now msg c post chat stats le reply hcool hng hok', hres]
  | cons d pre' ih =>
    intro chat stats le hnd h hchat hng hcool hok
    rw [List.cons_append, List.map_cons, List.nodup_cons] at hnd
    obtain ⟨hdrest, hndrest⟩ := hnd
    have hcd : c.name ≠ d.name := by
      intro hx
      apply hdrest
      rw [← hx]
      exact List.mem_map_of_mem Candidate.name
        (List.mem_append_right _ (List.mem_cons_self c post))
    have hdpre' : ∀ e ∈ pre', e.name ≠ d.name := by
      intro e he hne
      apply hdrest
      rw [← hne]
      exact List.mem_map_of_mem Candidate.name (List.mem_append_left _ he)
    have htrans : ∀ (v : Stats), ∀ e ∈ pre',
        coolingDown (((updateStats stats d.name v) e.name).lastFailure) now = true ∨
        (∀ r, reqModel r = e.name → (b r).isErr = true) := by
      intro v e he
      rcases h e (List.mem_cons_of_mem d he) with hce | hge
      · left; rw [updateStats_ne _ _ _ (hdpre' e he)]; exact hce
      · right; exact hge
    have hcool' : ∀ (v : Stats),
        coolingDown (((updateStats stats d.name v) c.name).lastFailure) now = false := by
      intro v
      rw [updateStats_ne _ _ _ hcd]
      exact hcool
    rw [List.cons_append]
    by_cases hdcool : coolingDown ((stats d.name).lastFailure) now = true
    · rw [chat_head_cool b now msg d _ _ stats le hdcool]
      exact ih chat stats le hndrest
        (fun e he => h e (List.mem_cons_of_mem d he)) hchat hng hcool hok
    · have hdcool' : coolingDown ((stats d.name).lastFailure) now = false :=
        Bool.eq_false_iff.mpr hdcool
      have hall : ∀ r, reqModel r = d.name → (b r).isErr = true := by
        rcases h d (List.mem_cons_self d pre') with hx | hall
        · exact absurd hx hdcool
        · exact hall
      by_cases hgq : (d.provider == Provider.groq) = true
      · obtain ⟨m, hm⟩ := isErr_exists (hall (.groqChat d.name (groqChatMessages msg)
          (d.config.lookup "temperature") (d.config.lookup "max_tokens")) rfl)
        rw [chat_head_groq_err b now msg d _ chat stats le m hdcool' hgq hm]
        exact ih chat _ (some m) hndrest (htrans _) hchat hng (hcool' _) hok
      · have hgq' : (d.provider == Provider.groq) = false := Bool.eq_false_iff.mpr hgq
        obtain ⟨m, hm⟩ := isErr_exists
          (hall (.geminiChatSend d.name (resolveChat chat d).history msg) rfl)
        rw [chat_head_gemini_err b now msg d _ chat stats le m hdcool' hgq' hm]
        refine ih (some (resolveChat chat d)) _ (some m) hndrest (htrans _) ?_ hng
          (hcool' _) hok
        intro cst hcst hmn
        have hmodel : (resolveChat chat d).modelName = cst.modelName := by
          rw [Option.some.inj hcst]
        rw [resolveChat_modelName] at hmodel
        exact hcd ((hmodel.trans hmn).symm)

/-- Name facts extracted from a no-duplicate split of the registry. -/
theorem nodup_parts {pre post : List Candidate} {c : Candidate}
    (hnd : ((pre ++ c :: post).map Candidate.name).Nodup) :
    c.name ∉ pre.map Candidate.name ∧
    (∀ d ∈ post, d.name ≠ c.name) ∧
    (∀ d ∈ post, d.name ∉ pre.map Candidate.name) := by
  rw [List.map_append, List.nodup_append] at hnd
  obtain ⟨_, h2, hdisj⟩ := hnd
  rw [List.map_cons, List.nodup_cons] at h2
  obtain ⟨hcpost, _⟩ := h2
  refine ⟨fun hmem => hdisj hmem ?_, ?_, ?_⟩
  · rw [List.map_cons]
    exact List.mem_cons_self _ _
  · intro d hd hdc
    apply hcpost
    rw [← hdc]
    exact List.mem_map_of_mem Candidate.name hd
  · intro d hd hmem
    refine hdisj hmem ?_
    rw [List.map_cons]
    exact List.mem_cons_of_mem _ (List.mem_map_of_mem Candidate.name hd)

theorem lookup_append (k : String) : ∀ (l₁ l₂ : List (String × Rat)),
    (l₁ ++ l₂).lookup k = ((l₁.lookup k).or (l₂.lookup k)) := by
  intro l₁ l₂
  induction l₁ with
  | nil => rfl
  | cons p t ih =>
    obtain ⟨a, v⟩ := p
    by_cases h : (k == a) = true
    · simp [List.lookup, h, Option.or]
    · have h' : (k == a) = false := Bool.eq_false_iff.mpr h
      simp [List.lookup, h', ih]

/-- Keys the overrides carry are dropped from the base by the spread. -/
theorem lookup_filter_of_override {ov : List (String × Rat)} {k : String} {v : Rat}
    (h : ov.lookup k = some v) :
    ∀ (base : List (String × Rat)),
    (base.filter (fun p => ((ov.lookup p.1).isNone : Bool))).lookup k = none := by
  intro base
  induction base with
  | nil => rfl
  | cons p t ih =>
    by_cases hk : (k == p.1) = true
    · have hp1 : p.1 = k := (eq_of_beq hk).symm
      have hdrop : ((ov.lookup p.1).isNone : Bool) = false := by
        rw [hp1, h]; rfl
      simp only [List.filter_cons, hdrop, Bool.false_eq_true, if_false]
      exact ih
    · have hk' : (k == p.1) = false := Bool.eq_false_iff.mpr hk
      by_cases hkeep : ((ov.lookup p.1).isNone : Bool) = true
      · simp only [List.filter_cons, hkeep, if_true, List.lookup, hk']
        exact ih
      · simp only [List.filter_cons, Bool.eq_false_iff.mpr hkeep, Bool.false_eq_true, if_false]
        exact ih

/-- Keys the overrides omit keep their base entry through the spread. -/
theorem lookup_filter_of_default {ov : List (String × Rat)} {k : String}
    (h : ov.lookup k = none) :
    ∀ (base : List (String × Rat)),
    (base.filter (fun p => ((ov.lookup p.1).isNone : Bool))).lookup k = base.lookup k := by
  intro base
  induction base with
  | nil => rfl
  | cons p t ih =>
    by_cases hk : (k == p.1) = true
    · have hp1 : p.1 = k := (eq_of_beq hk).symm
      have hkeep : ((ov.lookup p.1).isNone : Bool) = true := by
        rw [hp1, h]; rfl
      simp only [List.filter_cons, hkeep, if_true, List.lookup, hk]
    · have hk' : (k == p.1) = false := Bool.eq_false_iff.mpr hk
      by_cases hkeep : ((ov.lookup p.1).isNone : Bool) = true
      · simp only [List.filter_cons, hkeep, if_true, List.lookup, hk']
        exact ih
      · simp only [List.filter_cons, Bool.eq_false_iff.mpr hkeep, Bool.false_eq_true,
          if_false, List.lookup, hk']
        exact ih

/-- Spread semantics, override side: a key present in the overrides is
sent with the override's value. -/
theorem jsSpread_lookup_override {base ov : List (String × Rat)} {k : String} {v : Rat}
    (h : ov.lookup k = some v) : (jsSpread base ov).lookup k = some v := by
  unfold jsSpread
  rw [lookup_append, lookup_filter_of_override h base, h]
  rfl

/-- Spread semantics, default side: a key the overrides omit is sent with
the candidate's default value. -/
theorem jsSpread_lookup_default {base ov : List (String × Rat)} {k : String}
    (h : ov.lookup k = none) : (jsSpread base ov).lookup k = base.lookup k := by
  unfold jsSpread
  rw [lookup_append, lookup_filter_of_default h base, h]
  cases base.lookup k <;> rfl

/-! ## Claim theorems -/

/-- C4: after any sequence of generate and chat calls against the real
registry — any interleaving of successes, rate-limit failures, and other
failures, as chosen by each call's provider behaviour — every model's
statistics satisfy `failures ≤ attempts` and `rateLimitHits ≤ failures`. -/
theorem C4_stats_invariant_holds (ops : List Op) (nm : String) :
    StatsOK (runOps ops initialStats nm) :=
  runOps_statsOK ops initialStats (fun _ => ⟨Nat.le_refl 0, Nat.le_refl 0⟩) nm

/-- C5: if, in registry order, every candidate before `c` is skipped
(cooling down or Groq-with-image) or fails, while `c` is neither cooling
down nor capability-mismatched and its provider call succeeds with `t`,
then `generateWithFallback` returns `{text := t, modelUsed := c.name,
provider := c.provider}`, and no candidate after `c` is invoked (each
later candidate's stats record — in particular its `attempts` counter,
which every reached candidate increments — is unchanged). -/
theorem C5_generate_returns_first_available_success
    (b : ProviderRequest → Outcome) (now : Nat) (p : String)
    (cfg : List (String × Rat)) (img : Option String) (pre post : List Candidate)
    (c : Candidate) (stats : String → Stats) (le : Option String) (t : String)
    (hnd : ((pre ++ c :: post).map Candidate.name).Nodup)
    (hpre : ∀ d ∈ pre, genSkips now img stats d ∨ genFails b p cfg img d)
    (hcool : coolingDown ((stats c.name).lastFailure) now = false)
    (hcap : (c.provider == Provider.groq && img.isSome) = false)
    (hok : b (genRequestOf c p cfg img) = .ok t) :
    (generateWithFallback b now p cfg img (pre ++ c :: post) stats le).1
        = .ok ⟨t, c.name, c.provider⟩ ∧
    ∀ d ∈ post,
      (generateWithFallback b now p cfg img (pre ++ c :: post) stats le).2 d.name
        = stats d.name := by
  obtain ⟨hcpre, hpostc, hpostpre⟩ := nodup_parts hnd
  obtain ⟨stats', le', heq, hpres⟩ :=
    gen_reach b now p cfg img (c :: post) pre stats le hnd hpre
  have hcool' : coolingDown ((stats' c.name).lastFailure) now = false := by
    rw [hpres c.name hcpre]; exact hcool
  rw [heq, gen_head_success b now p cfg img c post stats' le' t hcool' hcap hok]
  refine ⟨rfl, fun d hd => ?_⟩
  show updateStats stats' c.name (incAttempts (stats' c.name)) d.name = stats d.name
  rw [updateStats_ne _ _ _ (hpostc d hd), hpres d.name (hpostpre d hd)]

/-- C5 witness: on the real registry with an all-succeeding provider, the
very first candidate (`gemini-2.5-flash`) serves the request. -/
theorem C5_witness :
    ((([] : List Candidate) ++
        (⟨"gemini-2.5-flash", Provider.gemini,
          [("temperature", Rat.mk' 7 10), ("topK", 40), ("topP", Rat.mk' 19 20),
           ("maxOutputTokens", 8000)]⟩ : Candidate)
        :: MODEL_PRIORITY.drop 1).map Candidate.name).Nodup ∧
    (generateWithFallback (fun _ => Outcome.ok "hi") 100 "p" [] none
        (([] : List Candidate) ++
          (⟨"gemini-2.5-flash", Provider.gemini,
            [("temperature", Rat.mk' 7 10), ("topK", 40), ("topP", Rat.mk' 19 20),
             ("maxOutputTokens", 8000)]⟩ : Candidate)
          :: MODEL_PRIORITY.drop 1) initialStats none).1
      = .ok ⟨"hi", "gemini-2.5-flash", Provider.gemini⟩ := by
  refine ⟨by decide, ?_⟩
  exact (C5_generate_returns_first_available_success
    (fun _ => Outcome.ok "hi") 100 "p" [] none [] (MODEL_PRIORITY.drop 1) _
    initialStats none "hi" (by decide)
    (fun d hd => absurd hd (List.not_mem_nil d)) (by decide) (by decide) rfl).1

/-- C9: a request missing its required input field (`message` for
`/api/chat`, `symptoms` for `/api/analyze-symptoms`, `imageBase64` for
`/api/read-prescription`) is rejected with a 400 error before the model
registry is consulted: the handler returns the 400 `AppError` together
with the stats map (and, for chat, the session store) it was given,
unchanged — so no model's `attempts` counter changes. -/
theorem C9_missing_required_field_rejected_400 :
    (∀ (b : ProviderRequest → Outcome) (now : Nat) (store : String → Option ChatState)
       (stats : String → Stats) (sid : Option String),
       apiChat b now store stats sid none
         = (.error ⟨"Message is required", 400⟩, store, stats)) ∧
    (∀ (b : ProviderRequest → Outcome) (now : Nat) (stats : String → Stats)
       (age gender duration : Option String),
       apiAnalyzeSymptoms b now stats none age gender duration
         = (.error ⟨"Symptoms are required", 400⟩, stats)) ∧
    (∀ (b : ProviderRequest → Outcome) (now : Nat) (stats : String → Stats),
       apiReadPrescription b now stats none
         = (.error ⟨"Image data is required", 400⟩, stats)) :=
  ⟨fun _ _ _ _ _ => rfl, fun _ _ _ _ _ _ => rfl, fun _ _ _ => rfl⟩

/-- C1 counterexample: `generateWithFallback` increments `attempts` BEFORE
the cooldown check.  With `gemini-2.5-flash` cooling down (rate-limit
failure at time 1, call at time 100) and an all-succeeding provider, the
call serves from the next candidate but the cooling candidate's `attempts`
counter rises from 0 to 1 — the claim's "no attempt recorded" fails on the
plain-generation path. -/
theorem C1_counterexample :
    coolingDown ((updateStats initialStats "gemini-2.5-flash" ⟨0, 0, some 1, 0⟩
        "gemini-2.5-flash").lastFailure) 100 = true ∧
    (updateStats initialStats "gemini-2.5-flash" ⟨0, 0, some 1, 0⟩
        "gemini-2.5-flash").attempts = 0 ∧
    (generateWithFallback (fun _ => Outcome.ok "hi") 100 "p" [] none MODEL_PRIORITY
        (updateStats initialStats "gemini-2.5-flash" ⟨0, 0, some 1, 0⟩) none).1
      = .ok ⟨"hi", "gemini-2.5-flash-lite", Provider.gemini⟩ ∧
    ((generateWithFallback (fun _ => Outcome.ok "hi") 100 "p" [] none MODEL_PRIORITY
        (updateStats initialStats "gemini-2.5-flash" ⟨0, 0, some 1, 0⟩) none).2
        "gemini-2.5-flash").attempts = 1 := by
  exact ⟨by decide, by decide, rfl, by decide⟩

/-- C1 (amended): a candidate in its cooldown window is skipped without
being invoked and without any failure bookkeeping, but the two paths
differ on the attempts counter.  On the chat path the cooldown check comes
first, so the cooling candidate's whole stats record is unchanged.  On the
plain-generation path `attempts++` precedes the check, so the record is
either unchanged (the loop returned before reaching the candidate) or
exactly `incAttempts` of the old record — `failures`, `rateLimitHits` and
`lastFailure` are unchanged, `attempts` rises by one when the candidate is
reached, contrary to the claim's "attempts counter is the same". -/
theorem C1_cooldown_skip_amended :
    (∀ (b : ProviderRequest → Outcome) (now : Nat) (msg : String) (cs : List Candidate)
       (chat : Option ChatState) (stats : String → Stats) (le : Option String)
       (nm : String),
       coolingDown ((stats nm).lastFailure) now = true →
       (chatWithFallback b now msg cs chat stats le).2 nm = stats nm) ∧
    (∀ (b : ProviderRequest → Outcome) (now : Nat) (p : String)
       (cfg : List (String × Rat)) (img : Option String) (cs : List Candidate)
       (stats : String → Stats) (le : Option String) (nm : String),
       (cs.map Candidate.name).Nodup →
       coolingDown ((stats nm).lastFailure) now = true →
       (generateWithFallback b now p cfg img cs stats le).2 nm = stats nm ∨
       (generateWithFallback b now p cfg img cs stats le).2 nm
         = incAttempts (stats nm)) := by
  constructor
  · intro b now msg cs chat stats le nm h
    exact chat_cooldown_stats b now msg nm cs chat stats le h
  · intro b now p cfg img cs stats le nm hnd h
    exact gen_skip_stats b now p cfg img nm cs stats le hnd (fun c _ _ => Or.inl h)

/-- C1 witness: with `gemini-2.5-flash` cooling down at call time, the
chat path leaves its record untouched and the generation path leaves it
untouched except for the attempts counter. -/
theorem C1_witness :
    coolingDown ((updateStats initialStats "gemini-2.5-flash" ⟨3, 2, some 1, 1⟩
        "gemini-2.5-flash").lastFailure) 100 = true ∧
    (chatWithFallback (fun _ => Outcome.ok "hi") 100 "m" MODEL_PRIORITY none
        (updateStats initialStats "gemini-2.5-flash" ⟨3, 2, some 1, 1⟩) none).2
        "gemini-2.5-flash"
      = updateStats initialStats "gemini-2.5-flash" ⟨3, 2, some 1, 1⟩
          "gemini-2.5-flash" ∧
    ((generateWithFallback (fun _ => Outcome.ok "hi") 100 "p" [] none MODEL_PRIORITY
        (updateStats initialStats "gemini-2.5-flash" ⟨3, 2, some 1, 1⟩) none).2
        "gemini-2.5-flash"
      = updateStats initialStats "gemini-2.5-flash" ⟨3, 2, some 1, 1⟩
          "gemini-2.5-flash" ∨
     (generateWithFallback (fun _ => Outcome.ok "hi") 100 "p" [] none MODEL_PRIORITY
        (updateStats initialStats "gemini-2.5-flash" ⟨3, 2, some 1, 1⟩) none).2
        "gemini-2.5-flash"
      = incAttempts (updateStats initialStats "gemini-2.5-flash" ⟨3, 2, some 1, 1⟩
          "gemini-2.5-flash")) := by
  refine ⟨by decide, ?_, ?_⟩
  · exact C1_cooldown_skip_amended.1 (fun _ => Outcome.ok "hi") 100 "m" MODEL_PRIORITY
      none _ none "gemini-2.5-flash" (by decide)
  · exact C1_cooldown_skip_amended.2 (fun _ => Outcome.ok "hi") 100 "p" [] none
      MODEL_PRIORITY _ none "gemini-2.5-flash" (by decide) (by decide)

/-- C2 counterexample: on an image-carrying request with every Gemini
candidate failing, the Groq candidate `llama-3.3-70b-versatile` is skipped
(it is never invoked: the call exhausts with a 503 even though the
behaviour would answer any Groq request) and records no failure, but its
`attempts` counter rises from 0 to 1 because `attempts++` precedes the
capability check — the claim's "attempts ... unchanged" fails. -/
theorem C2_counterexample :
    (initialStats "llama-3.3-70b-versatile").attempts = 0 ∧
    ((generateWithFallback (fun r => match r with
        | .geminiGen _ _ _ _ => Outcome.err "boom"
        | _ => Outcome.ok "groq-ok") 0 "p" [] (some "IMG") MODEL_PRIORITY
        initialStats none).2 "llama-3.3-70b-versatile").attempts = 1 ∧
    ((generateWithFallback (fun r => match r with
        | .geminiGen _ _ _ _ => Outcome.err "boom"
        | _ => Outcome.ok "groq-ok") 0 "p" [] (some "IMG") MODEL_PRIORITY
        initialStats none).2 "llama-3.3-70b-versatile").failures = 0 ∧
    (generateWithFallback (fun r => match r with
        | .geminiGen _ _ _ _ => Outcome.err "boom"
        | _ => Outcome.ok "groq-ok") 0 "p" [] (some "IMG") MODEL_PRIORITY
        initialStats none).1
      = .error ⟨allFailedMessage (some "boom"), 503⟩ := by
  exact ⟨by decide, by decide, by decide, rfl⟩

/-- C2 (amended): on an image-carrying request a Groq candidate is never
invoked — replacing every Groq generation response changes nothing — and
records no failure (`failures`, `rateLimitHits`, `lastFailure` unchanged),
but its `attempts` counter is incremented when the loop reaches it: its
record after the call is the old record or `incAttempts` of it, contrary
to the claim's "attempts ... unchanged by the call". -/
theorem C2_image_capability_skip_amended :
    (∀ (b o : ProviderRequest → Outcome) (now : Nat) (p : String)
       (cfg : List (String × Rat)) (img : String) (cs : List Candidate)
       (stats : String → Stats) (le : Option String),
       generateWithFallback (fun r => if isGroqGenReq r then o r else b r)
           now p cfg (some img) cs stats le
         = generateWithFallback b now p cfg (some img) cs stats le) ∧
    (∀ (b : ProviderRequest → Outcome) (now : Nat) (p : String)
       (cfg : List (String × Rat)) (img : String) (cs : List Candidate)
       (stats : String → Stats) (le : Option String) (nm : String),
       (cs.map Candidate.name).Nodup →
       (∀ c ∈ cs, c.name = nm → c.provider = Provider.groq) →
       (generateWithFallback b now p cfg (some img) cs stats le).2 nm = stats nm ∨
       (generateWithFallback b now p cfg (some img) cs stats le).2 nm
         = incAttempts (stats nm)) := by
  constructor
  · intro b o now p cfg img cs stats le
    exact gen_image_groq_independent b o now p cfg img cs stats le
  · intro b now p cfg img cs stats le nm hnd h
    exact gen_skip_stats b now p cfg (some img) nm cs stats le hnd
      (fun c hc hcn => Or.inr ⟨h c hc hcn, rfl⟩)

/-- C2 witness: concrete instance of both parts on the real registry for
the Groq candidate, with an image payload attached. -/
theorem C2_witness :
    generateWithFallback
        (fun r => if isGroqGenReq r then (fun _ => Outcome.ok "hijacked") r
                  else (fun _ => Outcome.err "down") r)
        0 "p" [] (some "IMG") MODEL_PRIORITY initialStats none
      = generateWithFallback (fun _ => Outcome.err "down") 0 "p" [] (some "IMG")
          MODEL_PRIORITY initialStats none ∧
    ((generateWithFallback (fun _ => Outcome.err "down") 0 "p" [] (some "IMG")
        MODEL_PRIORITY initialStats none).2 "llama-3.3-70b-versatile"
      = initialStats "llama-3.3-70b-versatile" ∨
     (generateWithFallback (fun _ => Outcome.err "down") 0 "p" [] (some "IMG")
        MODEL_PRIORITY initialStats none).2 "llama-3.3-70b-versatile"
      = incAttempts (initialStats "llama-3.3-70b-versatile")) := by
  constructor
  · exact C2_image_capability_skip_amended.1 (fun _ => Outcome.err "down")
      (fun _ => Outcome.ok "hijacked") 0 "p" [] "IMG" MODEL_PRIORITY initialStats none
  · exact C2_image_capability_skip_amended.2 (fun _ => Outcome.err "down") 0 "p" []
      "IMG" MODEL_PRIORITY initialStats none "llama-3.3-70b-versatile"
      (by decide) (by decide)

/-- C3 counterexample: with every candidate failing with the message
`weird_provider_message_xyz`, the chat path's terminal failure is the
fixed 503 message, which does NOT embed the most recent provider error —
while the generation path's terminal failure does embed it.  The claim's
"on both the plain-generation path and the chat path" fails on the chat
path. -/
theorem C3_counterexample :
    (chatWithFallback (fun _ => Outcome.err "weird_provider_message_xyz") 0 "m"
        MODEL_PRIORITY none initialStats none).1
      = .error ⟨chatExhaustedMessage, 503⟩ ∧
    jsIncludes chatExhaustedMessage "weird_provider_message_xyz" = false ∧
    (generateWithFallback (fun _ => Outcome.err "weird_provider_message_xyz") 0 "p" []
        none MODEL_PRIORITY initialStats none).1
      = .error ⟨allFailedMessage (some "weird_provider_message_xyz"), 503⟩ ∧
    jsIncludes (allFailedMessage (some "weird_provider_message_xyz"))
      "weird_provider_message_xyz" = true := by
  exact ⟨rfl, by decide, rfl, by decide⟩

/-- C3 (amended): when every candidate fails or is skipped, the operation
fails with a 503.  On the plain-generation path the error message embeds
the message of the most recent underlying provider error (the last
attempted-and-failing candidate's message, with skipped candidates after
it); on the chat path the 503 carries a fixed message that embeds no
provider error detail. -/
theorem C3_exhaustion_503_amended :
    (∀ (b : ProviderRequest → Outcome) (now : Nat) (p : String)
       (cfg : List (String × Rat)) (img : Option String) (pre post : List Candidate)
       (c : Candidate) (stats : String → Stats) (le : Option String) (m : String),
       ((pre ++ c :: post).map Candidate.name).Nodup →
       (∀ d ∈ pre, genSkips now img stats d ∨ genFails b p cfg img d) →
       coolingDown ((stats c.name).lastFailure) now = false →
       (c.provider == Provider.groq && img.isSome) = false →
       b (genRequestOf c p cfg img) = .err m →
       (∀ d ∈ post, genSkips now img stats d) →
       (generateWithFallback b now p cfg img (pre ++ c :: post) stats le).1
         = .error ⟨allFailedMessage (some m), 503⟩) ∧
    (∀ m : String, m ≠ "" →
       allFailedMessage (some m)
         = "AI service temporarily unavailable. Please try again in a moment. Last error: "
             ++ m) ∧
    (∀ (b : ProviderRequest → Outcome) (now : Nat) (msg : String) (cs : List Candidate)
       (chat : Option ChatState) (stats : String → Stats) (le : Option String)
       (e : AppError) (st' : String → Stats),
       chatWithFallback b now msg cs chat stats le = (.error e, st') →
       e = ⟨chatExhaustedMessage, 503⟩) := by
  refine ⟨?_, ?_, ?_⟩
  · intro b now p cfg img pre post c stats le m hnd hpre hcool hcap herr hpost
    obtain ⟨hcpre, hpostc, hpostpre⟩ := nodup_parts hnd
    obtain ⟨stats', le', heq, hpres⟩ :=
      gen_reach b now p cfg img (c :: post) pre stats le hnd hpre
    have hcool' : coolingDown ((stats' c.name).lastFailure) now = false := by
      rw [hpres c.name hcpre]; exact hcool
    rw [heq, gen_head_err b now p cfg img c post stats' le' m hcool' hcap herr]
    have hpost' : ∀ d ∈ post, genSkips now img
        (updateStats stats' c.name
          (recordFailure (incAttempts (stats' c.name)) m now)) d := by
      intro d hd
      rcases hpost d hd with hcd | hmd
      · left
        rw [updateStats_ne _ _ _ (hpostc d hd), hpres d.name (hpostpre d hd)]
        exact hcd
      · exact Or.inr hmd
    exact (gen_all_skips b now p cfg img post _ (some m) hpost').1
  · intro m hm
    simp [allFailedMessage, jsOrStr, hm]
  · intro b now msg cs chat stats le e st' h
    exact chat_error_fixed b now msg cs chat stats le e st' h

/-- C3 witness: first candidate fails with "boom", the other ten are
cooling down, so generation exhausts with the 503 embedding "boom"; and a
fully failing chat run exhausts with the fixed chat 503. -/
theorem C3_witness :
    (generateWithFallback (fun _ => Outcome.err "boom") 100 "p" [] none
        (([] : List Candidate) ++
          (⟨"gemini-2.5-flash", Provider.gemini,
            [("temperature", Rat.mk' 7 10), ("topK", 40), ("topP", Rat.mk' 19 20),
             ("maxOutputTokens", 8000)]⟩ : Candidate)
          :: MODEL_PRIORITY.drop 1)
        (fun n => if n = "gemini-2.5-flash" then ⟨0, 0, none, 0⟩ else ⟨0, 0, some 1, 0⟩)
        none).1
      = .error ⟨allFailedMessage (some "boom"), 503⟩ ∧
    allFailedMessage (some "boom")
      = "AI service temporarily unavailable. Please try again in a moment. Last error: "
          ++ "boom" ∧
    (⟨chatExhaustedMessage, 503⟩ : AppError) = ⟨chatExhaustedMessage, 503⟩ := by
  refine ⟨?_, ?_, ?_⟩
  · exact C3_exhaustion_503_amended.1 (fun _ => Outcome.err "boom") 100 "p" [] none
      [] (MODEL_PRIORITY.drop 1) _
      (fun n => if n = "gemini-2.5-flash" then ⟨0, 0, none, 0⟩ else ⟨0, 0, some 1, 0⟩)
      none "boom" (by decide) (fun d hd => absurd hd (List.not_mem_nil d))
      (by decide) (by decide) rfl (by decide)
  · exact C3_exhaustion_503_amended.2.1 "boom" (by decide)
  · exact C3_exhaustion_503_amended.2.2 (fun _ => Outcome.err "boom") 0 "m"
      MODEL_PRIORITY none initialStats none ⟨chatExhaustedMessage, 503⟩
      (chatWithFallback (fun _ => Outcome.err "boom") 0 "m" MODEL_PRIORITY none
        initialStats none).2 rfl

/-- C6 counterexample: a zero override is dropped by the Groq path.  The
Groq candidate's Javascript merge uses `||`, so overriding `temperature`
with the (falsy) value 0 sends the candidate default 0.7 (= mk' 7 10) instead of the
override, and an end-to-end run on the real registry (both Gemini models
before llama failing) observes the default at the provider call — the
claim's "overrides take precedence key-by-key ... for both the gemini and
the groq provider paths" fails on the groq path. -/
theorem C6_counterexample :
    ((([("temperature", (0 : Rat))] : List (String × Rat)).lookup "temperature")
      = some 0) ∧
    groqGenTemperature
      ⟨"llama-3.3-70b-versatile", Provider.groq,
        [("temperature", Rat.mk' 7 10), ("max_tokens", 8000)]⟩
      [("temperature", 0)] = some (Rat.mk' 7 10) ∧
    some (Rat.mk' 7 10) ≠ some (0 : Rat) ∧
    (MODEL_PRIORITY.drop 2).head?
      = some ⟨"llama-3.3-70b-versatile", Provider.groq,
          [("temperature", Rat.mk' 7 10), ("max_tokens", 8000)]⟩ ∧
    (generateWithFallback
        (fun r => match r with
          | .groqGen _ _ t _ =>
              if t == some (Rat.mk' 7 10) then Outcome.ok "default-used"
              else Outcome.ok "override-used"
          | _ => Outcome.err "gemini down")
        0 "p" [("temperature", 0)] none MODEL_PRIORITY initialStats none).1
      = .ok ⟨"default-used", "llama-3.3-70b-versatile", Provider.groq⟩ := by
  exact ⟨by decide, by decide, by decide, by decide, rfl⟩

/-- C6 (amended): config merging is key-by-key with overrides winning on
the Gemini path (`{...defaults, ...overrides}` spread: an override key is
sent with the override's value, an omitted key with the default), while on
the Groq path the JS `||` merge lets the override win only when its value
is truthy (nonzero): a present nonzero override is sent, but a zero
override falls back to the candidate default. -/
theorem C6_config_merge_amended :
    (∀ (c : Candidate) (custom : List (String × Rat)) (k : String) (v : Rat),
       custom.lookup k = some v →
       (jsSpread c.config custom).lookup k = some v) ∧
    (∀ (c : Candidate) (custom : List (String × Rat)) (k : String),
       custom.lookup k = none →
       (jsSpread c.config custom).lookup k = c.config.lookup k) ∧
    (∀ (c : Candidate) (custom : List (String × Rat)) (v : Rat),
       custom.lookup "temperature" = some v → v ≠ 0 →
       groqGenTemperature c custom = some v) ∧
    (∀ (c : Candidate) (custom : List (String × Rat)) (v : Rat),
       custom.lookup "maxOutputTokens" = some v → v ≠ 0 →
       groqGenMaxTokens c custom = some v) := by
  refine ⟨?_, ?_, ?_, ?_⟩
  · intro c custom k v h
    exact jsSpread_lookup_override h
  · intro c custom k h
    exact jsSpread_lookup_default h
  · intro c custom v h hv
    rw [groqGenTemperature, h, jsOrOpt, if_neg hv]
  · intro c custom v h hv
    rw [groqGenMaxTokens, h, jsOrOpt, if_neg hv]

/-- C6 witness: concrete instances of all four merge facts on the first
Gemini candidate's config and the Groq candidate's config. -/
theorem C6_witness :
    (jsSpread [("temperature", Rat.mk' 7 10), ("topK", 40), ("topP", Rat.mk' 19 20),
        ("maxOutputTokens", 8000)] [("temperature", Rat.mk' 3 10), ("maxOutputTokens", 600)]).lookup
        "temperature" = some (Rat.mk' 3 10) ∧
    (jsSpread [("temperature", Rat.mk' 7 10), ("topK", 40), ("topP", Rat.mk' 19 20),
        ("maxOutputTokens", 8000)] [("temperature", Rat.mk' 3 10), ("maxOutputTokens", 600)]).lookup
        "topK" = some 40 ∧
    groqGenTemperature
      ⟨"llama-3.3-70b-versatile", Provider.groq,
        [("temperature", Rat.mk' 7 10), ("max_tokens", 8000)]⟩
      [("temperature", Rat.mk' 3 10), ("maxOutputTokens", 600)] = some (Rat.mk' 3 10) ∧
    groqGenMaxTokens
      ⟨"llama-3.3-70b-versatile", Provider.groq,
        [("temperature", Rat.mk' 7 10), ("max_tokens", 8000)]⟩
      [("temperature", Rat.mk' 3 10), ("maxOutputTokens", 600)] = some 600 := by
  refine ⟨?_, ?_, ?_, ?_⟩
  · exact C6_config_merge_amended.1
      ⟨"gemini-2.5-flash", Provider.gemini,
        [("temperature", Rat.mk' 7 10), ("topK", 40), ("topP", Rat.mk' 19 20), ("maxOutputTokens", 8000)]⟩
      [("temperature", Rat.mk' 3 10), ("maxOutputTokens", 600)] "temperature" (Rat.mk' 3 10) (by decide)
  · exact C6_config_merge_amended.2.1
      ⟨"gemini-2.5-flash", Provider.gemini,
        [("temperature", Rat.mk' 7 10), ("topK", 40), ("topP", Rat.mk' 19 20), ("maxOutputTokens", 8000)]⟩
      [("temperature", Rat.mk' 3 10), ("maxOutputTokens", 600)] "topK" (by decide)
  · exact C6_config_merge_amended.2.2.1
      ⟨"llama-3.3-70b-versatile", Provider.groq,
        [("temperature", Rat.mk' 7 10), ("max_tokens", 8000)]⟩
      [("temperature", Rat.mk' 3 10), ("maxOutputTokens", 600)] (Rat.mk' 3 10) (by decide) (by decide)
  · exact C6_config_merge_amended.2.2.2
      ⟨"llama-3.3-70b-versatile", Provider.groq,
        [("temperature", Rat.mk' 7 10), ("max_tokens", 8000)]⟩
      [("temperature", Rat.mk' 3 10), ("maxOutputTokens", 600)] 600 (by decide) (by decide)

/-- C7: `lastFailure` — the sole trigger of the cooldown skip — is set
only on a rate-limit classification.  Over any sequence of generate and
chat calls in which every error returned for requests addressed to model
`nm` fails the rate-limit classification, `nm`'s `lastFailure` stays
`null`, so `isCoolingDown` is false at every future instant and the model
is retried on (never cooldown-skipped from) every request. -/
theorem C7_only_rate_limit_triggers_cooldown (ops : List Op) (nm : String)
    (h : ∀ op ∈ ops, NoRateLimitFor op.behavior nm) :
    (runOps ops initialStats nm).lastFailure = none ∧
    ∀ now, coolingDown ((runOps ops initialStats nm).lastFailure) now = false := by
  have hmain : ∀ (l : List Op) (stats : String → Stats),
      (∀ op ∈ l, NoRateLimitFor op.behavior nm) →
      (stats nm).lastFailure = none →
      (runOps l stats nm).lastFailure = none := by
    intro l
    induction l with
    | nil => intro stats _ h0; exact h0
    | cons op rest ih =>
      intro stats hall h0
      refine ih (runOp stats op) (fun o ho => hall o (List.mem_cons_of_mem op ho)) ?_
      have hop := hall op (List.mem_cons_self op rest)
      cases op with
      | genOp b now prompt cfg img =>
        exact gen_lastFailure_none b now prompt cfg img nm hop _ _ _ h0
      | chatOp b now msg chat =>
        exact chat_lastFailure_none b now msg nm hop _ _ _ _ h0
  have h1 := hmain ops initialStats h rfl
  exact ⟨h1, fun now => by rw [h1]; rfl⟩

/-- C7 witness: one generate call whose provider always fails with a
non-rate-limit message leaves `gemini-2.5-flash` with `lastFailure` null
and not cooling down. -/
theorem C7_witness :
    (runOps [Op.genOp (fun _ => Outcome.err "provider exploded") 5 "p" [] none]
        initialStats "gemini-2.5-flash").lastFailure = none ∧
    coolingDown ((runOps [Op.genOp (fun _ => Outcome.err "provider exploded") 5 "p" []
        none] initialStats "gemini-2.5-flash").lastFailure) 20 = false := by
  have h := C7_only_rate_limit_triggers_cooldown
    [Op.genOp (fun _ => Outcome.err "provider exploded") 5 "p" [] none]
    "gemini-2.5-flash"
    (by
      intro op hop
      rw [List.mem_singleton] at hop
      subst hop
      intro r _ m hm
      have hm' : m = "provider exploded" := (Outcome.err.inj hm).symm
      rw [hm']
      decide)
  exact ⟨h.1, h.2 20⟩

/-- C8 counterexample: a session bound to `gemini-2.5-flash-lite` with one
prior exchange sends a second message; `gemini-2.5-flash` (earlier in
registry order) is available, is attempted and fails, which rebinds the
loop's chat variable; the serving model is then again the session's own
`gemini-2.5-flash-lite` — the same gemini model — yet the reply is
produced on a fresh chat: the returned history restarts from the initial
priming/greeting turns and has lost the prior turn `(user, "m1")`. The
claim's "the second message is sent on the stored session whose dialogue
history includes the prior turns" fails. -/
theorem C8_counterexample :
    (chatWithFallback
        (fun r => match r with
          | .geminiChatSend "gemini-2.5-flash" _ _ => Outcome.err "x"
          | _ => Outcome.ok "r2")
        0 "m2" MODEL_PRIORITY
        (some ⟨"gemini-2.5-flash-lite",
               initialChatHistory ++ [(Role.user, "m1"), (Role.model, "r1")]⟩)
        initialStats none).1
      = .ok ⟨"r2",
             some ⟨"gemini-2.5-flash-lite",
                   initialChatHistory ++ [(Role.user, "m2"), (Role.model, "r2")]⟩,
             "gemini-2.5-flash-lite", Provider.gemini⟩ ∧
    (Role.user, "m1")
      ∈ (initialChatHistory ++ [(Role.user, "m1"), (Role.model, "r1")] :
          List (Role × String)) ∧
    ¬ (Role.user, "m1")
      ∈ (initialChatHistory ++ [(Role.user, "m2"), (Role.model, "r2")] :
          List (Role × String)) := by
  exact ⟨rfl, by decide, by decide⟩

/-- C8 (amended): for a chat turn served by a Gemini candidate `c` while
every earlier candidate in registry order is skipped for cooldown or is a
failing Groq candidate (so no earlier Gemini candidate is attempted — an
attempted-and-failing earlier Gemini candidate rebinds the loop's chat and
resets the session even when the bound model then serves), a session bound
to `c`'s model is continued: the reply is sent on the stored history and
the returned session appends exactly the new user/model turns (history
grows by two, prior turns preserved).  And whenever the serving Gemini
candidate differs from the session's bound `modelName` (earlier candidates
skipped or failing arbitrarily), the returned session starts fresh from
the fixed initial priming/greeting turns, discarding prior dialogue. -/
theorem C8_chat_continuation_amended :
    (∀ (b : ProviderRequest → Outcome) (now : Nat) (msg : String) (cst : ChatState)
       (c : Candidate) (pre post : List Candidate) (reply : String)
       (stats : String → Stats) (le : Option String),
       ((pre ++ c :: post).map Candidate.name).Nodup →
       (∀ d ∈ pre,
          coolingDown ((stats d.name).lastFailure) now = true ∨
          (d.provider = Provider.groq ∧ ∀ r, reqModel r = d.name → (b r).isErr = true)) →
       (c.provider == Provider.groq) = false →
       coolingDown ((stats c.name).lastFailure) now = false →
       cst.modelName = c.name →
       b (.geminiChatSend c.name cst.history msg) = .ok reply →
       (chatWithFallback b now msg (pre ++ c :: post) (some cst) stats le).1
         = .ok ⟨reply,
                some ⟨c.name, cst.history ++ [(Role.user, msg), (Role.model, reply)]⟩,
                c.name, c.provider⟩) ∧
    (∀ (b : ProviderRequest → Outcome) (now : Nat) (msg : String)
       (chat : Option ChatState) (c : Candidate) (pre post : List Candidate)
       (reply : String) (stats : String → Stats) (le : Option String),
       ((pre ++ c :: post).map Candidate.name).Nodup →
       (∀ d ∈ pre,
          coolingDown ((stats d.name).lastFailure) now = true ∨
          (∀ r, reqModel r = d.name → (b r).isErr = true)) →
       (∀ cst, chat = some cst → cst.modelName ≠ c.name) →
       (c.provider == Provider.groq) = false →
       coolingDown ((stats c.name).lastFailure) now = false →
       b (.geminiChatSend c.name initialChatHistory msg) = .ok reply →
       (chatWithFallback b now msg (pre ++ c :: post) chat stats le).1
         = .ok ⟨reply,
                some ⟨c.name,
                      initialChatHistory ++ [(Role.user, msg), (Role.model, reply)]⟩,
                c.name, c.provider⟩) := by
  constructor
  · intro b now msg cst c pre post reply stats le hnd hpre hng hcool hname hok
    exact chat_same_model_aux b now msg cst c post reply pre stats le hnd hpre hng
      hcool hname hok
  · intro b now msg chat c pre post reply stats le hnd hpre hchat hng hcool hok
    exact chat_switch_fresh_aux b now msg c post reply pre chat stats le hnd hpre
      hchat hng hcool hok

/-- C8 witness: with no earlier candidate available, a session bound to
the first registry model is continued with its history appended; and a
session bound to a different name is replaced by a fresh chat. -/
theorem C8_witness :
    (chatWithFallback (fun _ => Outcome.ok "r2") 7 "m2"
        (([] : List Candidate) ++
          (⟨"gemini-2.5-flash", Provider.gemini,
            [("temperature", Rat.mk' 7 10), ("topK", 40), ("topP", Rat.mk' 19 20),
             ("maxOutputTokens", 8000)]⟩ : Candidate)
          :: MODEL_PRIORITY.drop 1)
        (some ⟨"gemini-2.5-flash",
               initialChatHistory ++ [(Role.user, "m1"), (Role.model, "r1")]⟩)
        initialStats none).1
      = .ok ⟨"r2",
             some ⟨"gemini-2.5-flash",
                   (initialChatHistory ++ [(Role.user, "m1"), (Role.model, "r1")])
                     ++ [(Role.user, "m2"), (Role.model, "r2")]⟩,
             "gemini-2.5-flash", Provider.gemini⟩ ∧
    (chatWithFallback (fun _ => Outcome.ok "r2") 7 "m2"
        (([] : List Candidate) ++
          (⟨"gemini-2.5-flash", Provider.gemini,
            [("temperature", Rat.mk' 7 10), ("topK", 40), ("topP", Rat.mk' 19 20),
             ("maxOutputTokens", 8000)]⟩ : Candidate)
          :: MODEL_PRIORITY.drop 1)
        (some ⟨"some-other-model", initialChatHistory⟩) initialStats none).1
      = .ok ⟨"r2",
             some ⟨"gemini-2.5-flash",
                   initialChatHistory ++ [(Role.user, "m2"), (Role.model, "r2")]⟩,
             "gemini-2.5-flash", Provider.gemini⟩ := by
  constructor
  · exact C8_chat_continuation_amended.1 (fun _ => Outcome.ok "r2") 7 "m2"
      ⟨"gemini-2.5-flash",
        initialChatHistory ++ [(Role.user, "m1"), (Role.model, "r1")]⟩
      _ [] (MODEL_PRIORITY.drop 1) "r2" initialStats none (by decide)
      (fun d hd => absurd hd (List.not_mem_nil d)) (by decide) (by decide) rfl rfl
  · exact C8_chat_continuation_amended.2 (fun _ => Outcome.ok "r2") 7 "m2"
      (some ⟨"some-other-model", initialChatHistory⟩) _ [] (MODEL_PRIORITY.drop 1)
      "r2" initialStats none (by decide)
      (fun d hd => absurd hd (List.not_mem_nil d))
      (fun cst hcst => by
        rw [← Option.some.inj hcst]
        decide)
      (by decide) (by decide) rfl

/-- C10: a chat turn served by a Groq candidate returns a `null` chat
object (`chat: null` in the Groq branch); the `/api/chat` handler stores
the returned chat only when it is non-null, so a Groq-served turn leaves
the whole session store — in particular any pre-existing Gemini session
under the same `sessionId` — unchanged; and the Groq chat call's messages
array is exactly the fixed system message plus the current user message,
independent of any stored history. -/
theorem C10_groq_chat_stateless :
    (∀ (b : ProviderRequest → Outcome) (now : Nat) (msg : String)
       (cs : List Candidate) (chat : Option ChatState) (stats : String → Stats)
       (le : Option String) (r : ChatSuccess) (st' : String → Stats),
       chatWithFallback b now msg cs chat stats le = (.ok r, st') →
       r.provider = Provider.groq → r.chat = none) ∧
    (∀ (b : ProviderRequest → Outcome) (now : Nat) (store : String → Option ChatState)
       (stats : String → Stats) (sid msg : Option String) (r : ChatApiResponse),
       (apiChat b now store stats sid msg).1 = .ok r →
       r.provider = Provider.groq →
       (apiChat b now store stats sid msg).2.1 = store) ∧
    (∀ msg : String,
       groqChatMessages msg = [(Role.system, drAiSystemPrompt), (Role.user, msg)]) := by
  refine ⟨?_, ?_, fun _ => rfl⟩
  · intro b now msg cs chat stats le r st' h hp
    exact chat_ok_groq_chat_none b now msg cs chat stats le r st' h hp
  · intro b now store stats sid msg r h hp
    by_cases hf : jsFalsy msg = true
    · rw [apiChat, if_pos hf] at h
      exact Except.noConfusion h
    · have hf' : jsFalsy msg = false := Bool.eq_false_iff.mpr hf
      cases hres : chatWithFallback b now (msg.getD "") MODEL_PRIORITY
          (store (sid.getD "default")) stats none with
      | mk res st' =>
        cases res with
        | error e =>
          rw [apiChat, if_neg (by rw [hf']; exact Bool.false_ne_true), hres] at h
          exact Except.noConfusion h
        | ok r' =>
          have hchat : r'.chat = none := by
            refine chat_ok_groq_chat_none b now (msg.getD "") MODEL_PRIORITY
              (store (sid.getD "default")) stats none r' st' hres ?_
            rw [apiChat, if_neg (by rw [hf']; exact Bool.false_ne_true), hres] at h
            have hr : r = ⟨r'.reply, sid.getD "default", r'.modelUsed, r'.provider⟩ :=
              (Except.ok.inj h).symm
            rw [hr] at hp
            exact hp
          rw [apiChat, if_neg (by rw [hf']; exact Bool.false_ne_true), hres]
          show (match r'.chat with
            | some cst => fun k => if k = sid.getD "default" then some cst else store k
            | none => store) = store
          rw [hchat]

/-- C10 witness: with both Gemini models before llama failing, the Groq
candidate serves the chat; the handler leaves the store — holding a
Gemini session under the same key — unchanged. -/
theorem C10_witness :
    (apiChat
        (fun r => match r with
          | .groqChat _ _ _ _ => Outcome.ok "groq-reply"
          | _ => Outcome.err "gemini down")
        0
        (fun k => if k = "default"
          then some ⟨"gemini-2.5-flash", initialChatHistory⟩ else none)
        initialStats none (some "hello")).1
      = .ok ⟨"groq-reply", "default", "llama-3.3-70b-versatile", Provider.groq⟩ ∧
    (apiChat
        (fun r => match r with
          | .groqChat _ _ _ _ => Outcome.ok "groq-reply"
          | _ => Outcome.err "gemini down")
        0
        (fun k => if k = "default"
          then some ⟨"gemini-2.5-flash", initialChatHistory⟩ else none)
        initialStats none (some "hello")).2.1
      = (fun k => if k = "default"
          then some ⟨"gemini-2.5-flash", initialChatHistory⟩ else none) := by
  constructor
  · rfl
  · exact C10_groq_chat_stateless.2.1
      (fun r => match r with
        | .groqChat _ _ _ _ => Outcome.ok "groq-reply"
        | _ => Outcome.err "gemini down")
      0
      (fun k => if k = "default"
        then some ⟨"gemini-2.5-flash", initialChatHistory⟩ else none)
      initialStats none (some "hello")
      ⟨"groq-reply", "default", "llama-3.3-70b-versatile", Provider.groq⟩ rfl rfl

end HackSprint
